import Mathlib

/-!
Verification development for the per-unit payload cache and synchronization
engine of `src/public/input.js` (with `src/public/inputfinal.js` sharing the
`secondsToHHMMSS` / `collectFormData` helpers).

The JavaScript is shallowly embedded: JS values flowing through the engine are
modelled by a `Json` AST, `JSON.stringify` / `JSON.parse` by an executable
printer / parser, `localStorage` keys by `Option String` fields, and the
engine's mutable globals by an explicit `EngineState` record threaded through
each operation.  Network responses are inputs (oracles) to the operations that
fetch, since the backend is not part of the sources; requests issued are
recorded in a trace.  DOM form content is abstracted as a `FormState` holding
the values `collectFormData` would read from the document.
-/

namespace BunkerSync

/-- JSON / JavaScript value AST: numbers are modelled as integers (every number
the engine stores and compares in the claims is integral). -/
inductive Json where
  | null : Json
  | bool : Bool → Json
  | num : Int → Json
  | str : String → Json
  | arr : List Json → Json
  | obj : List (String × Json) → Json

/-- JavaScript truthiness of a value (`NaN` does not occur in `Json`). -/
def jsTruthy : Json → Bool
  | Json.null => false
  | Json.bool b => b
  | Json.num n => n != 0
  | Json.str s => s != ""
  | Json.arr _ => true
  | Json.obj _ => true

/-- Truthiness of a possibly-missing value (`undefined` is falsy). -/
def truthyOpt : Option Json → Bool
  | none => false
  | some j => jsTruthy j

/-- First value bound to a key in an association list. -/
def findPair : List (String × Json) → String → Option Json
  | [], _ => none
  | (k', v') :: t, k => if k' == k then some v' else findPair t k

/-- Property read `j[k]`: `none` models `undefined` (missing key or non-object
receiver; property access on primitives yields `undefined`, on `null` the
callers guard or catch). -/
def getField : Json → String → Option Json
  | Json.obj kvs, k => findPair kvs k
  | _, _ => none

/-- Assignment `obj[k] = v` on an association list: replaces in place, else
appends (JS insertion order). -/
def setPairs : List (String × Json) → String → Json → List (String × Json)
  | [], k, v => [(k, v)]
  | (k', v') :: t, k, v =>
      if k' == k then (k, v) :: t else (k', v') :: setPairs t k v

/-- Property write `j[k] = v`: a silent no-op on non-objects (sloppy-mode JS
ignores property writes to primitives). -/
def setField : Json → String → Json → Json
  | Json.obj kvs, k, v => Json.obj (setPairs kvs k v)
  | j, _, _ => j

/-- The `||` operator on JS values. -/
def jsOr (a b : Json) : Json := if jsTruthy a then a else b

/-- The chain `a.x || a.y || ... ` over possibly-missing values: first truthy
one, if any. -/
def firstTruthy : List (Option Json) → Option Json
  | [] => none
  | o :: t => if truthyOpt o then o else firstTruthy t

/-- Opening brace character. -/
def obraceC : Char := Char.ofNat 123

/-- Closing brace character. -/
def cbraceC : Char := Char.ofNat 125

/-- Opening brace as a string. -/
def obrace : String := String.singleton obraceC

/-- Closing brace as a string. -/
def cbrace : String := String.singleton cbraceC

/-- Hex digit for a value below 16. -/
def hexDigit (n : Nat) : Char :=
  if n < 10 then Char.ofNat (48 + n) else Char.ofNat (87 + n)

/-- Escape one character the way `JSON.stringify` does. -/
def escapeChar (c : Char) : String :=
  if c = '"' then "\\\""
  else if c = '\\' then "\\\\"
  else if c = Char.ofNat 10 then "\\n"
  else if c = Char.ofNat 9 then "\\t"
  else if c = Char.ofNat 13 then "\\r"
  else if c = Char.ofNat 8 then "\\b"
  else if c = Char.ofNat 12 then "\\f"
  else if c.toNat < 32 then
    "\\u00" ++ String.singleton (hexDigit (c.toNat / 16))
            ++ String.singleton (hexDigit (c.toNat % 16))
  else String.singleton c

/-- Quote and escape a string literal the way `JSON.stringify` does. -/
def quoteStr (s : String) : String :=
  "\"" ++ String.join (s.data.map escapeChar) ++ "\""

mutual

/-- Fuel-bounded body of the `JSON.stringify` model (the fuel is only a
structural-recursion device; `printJson` always supplies enough). -/
def printJsonF : Nat → Json → String
  | _, Json.null => "null"
  | _, Json.bool true => "true"
  | _, Json.bool false => "false"
  | _, Json.num n => toString n
  | _, Json.str s => quoteStr s
  | 0, Json.arr _ => ""
  | 0, Json.obj _ => ""
  | fuel + 1, Json.arr xs => "[" ++ printItems fuel xs ++ "]"
  | fuel + 1, Json.obj kvs => obrace ++ printPairs fuel kvs ++ cbrace

/-- Comma-separated serialization of array items. -/
def printItems : Nat → List Json → String
  | _, [] => ""
  | fuel, [x] => printJsonF fuel x
  | fuel, x :: xs => printJsonF fuel x ++ "," ++ printItems fuel xs

/-- Comma-separated serialization of object entries. -/
def printPairs : Nat → List (String × Json) → String
  | _, [] => ""
  | fuel, [(k, v)] => quoteStr k ++ ":" ++ printJsonF fuel v
  | fuel, (k, v) :: kvs => quoteStr k ++ ":" ++ printJsonF fuel v ++ "," ++ printPairs fuel kvs

end

mutual

/-- Structural size of a JSON value (over-approximates nesting depth). -/
def jsonSize : Json → Nat
  | Json.null => 1
  | Json.bool _ => 1
  | Json.num _ => 1
  | Json.str _ => 1
  | Json.arr xs => 1 + jsonSizeItems xs
  | Json.obj kvs => 1 + jsonSizePairs kvs

/-- Structural size of a list of JSON values. -/
def jsonSizeItems : List Json → Nat
  | [] => 0
  | x :: xs => 1 + jsonSize x + jsonSizeItems xs

/-- Structural size of a list of JSON object entries. -/
def jsonSizePairs : List (String × Json) → Nat
  | [] => 0
  | (_, v) :: kvs => 1 + jsonSize v + jsonSizePairs kvs

end

/-- Model of `JSON.stringify` (no indentation, insertion-ordered keys); the
structural size of the value always over-approximates the fuel the printer
needs. -/
def printJson (j : Json) : String := printJsonF (jsonSize j) j

/-- Whitespace skipping for the parser. -/
def skipWs (cs : List Char) : List Char :=
  cs.dropWhile (fun c => c = ' ' ∨ c = Char.ofNat 9 ∨ c = Char.ofNat 10 ∨ c = Char.ofNat 13)

/-- Decimal digit test. -/
def isDigitC (c : Char) : Bool := 48 ≤ c.toNat ∧ c.toNat ≤ 57

/-- Value of a hex digit, if it is one. -/
def hexVal (c : Char) : Option Nat :=
  if 48 ≤ c.toNat ∧ c.toNat ≤ 57 then some (c.toNat - 48)
  else if 97 ≤ c.toNat ∧ c.toNat ≤ 102 then some (c.toNat - 87)
  else if 65 ≤ c.toNat ∧ c.toNat ≤ 70 then some (c.toNat - 55)
  else none

/-- Parse the body of a JSON string literal (after the opening quote),
fuel-bounded. -/
def parseStrBody : Nat → List Char → Option (String × List Char)
  | 0, _ => none
  | _ + 1, [] => none
  | fuel + 1, c :: rest =>
      if c = '"' then some ("", rest)
      else if c = '\\' then
        match rest with
        | [] => none
        | e :: rest' =>
            let cont (ch : Char) (rem : List Char) : Option (String × List Char) :=
              (parseStrBody fuel rem).map (fun p => (String.singleton ch ++ p.1, p.2))
            if e = '"' then cont '"' rest'
            else if e = '\\' then cont '\\' rest'
            else if e = '/' then cont '/' rest'
            else if e = 'n' then cont (Char.ofNat 10) rest'
            else if e = 't' then cont (Char.ofNat 9) rest'
            else if e = 'r' then cont (Char.ofNat 13) rest'
            else if e = 'b' then cont (Char.ofNat 8) rest'
            else if e = 'f' then cont (Char.ofNat 12) rest'
            else if e = 'u' then
              match rest' with
              | h1 :: h2 :: h3 :: h4 :: rest'' =>
                  match hexVal h1, hexVal h2, hexVal h3, hexVal h4 with
                  | some a, some b, some c2, some d =>
                      cont (Char.ofNat (a * 4096 + b * 256 + c2 * 16 + d)) rest''
                  | _, _, _, _ => none
              | _ => none
            else none
      else if c.toNat < 32 then none
      else (parseStrBody fuel rest).map (fun p => (String.singleton c ++ p.1, p.2))

/-- Parse a JSON integer literal (the model restricts numbers to integers). -/
def parseNum (cs : List Char) : Option (Json × List Char) :=
  let (neg, cs') := if cs.head? = some '-' then (true, cs.tail) else (false, cs)
  let digits := cs'.takeWhile isDigitC
  let rest := cs'.dropWhile isDigitC
  if digits.isEmpty then none
  else
    let n : Nat := digits.foldl (fun acc c => acc * 10 + (c.toNat - 48)) 0
    match rest with
    | '.' :: _ => none
    | 'e' :: _ => none
    | 'E' :: _ => none
    | _ => some (Json.num (if neg then -(n : Int) else (n : Int)), rest)

mutual

/-- Parse one JSON value, fuel-bounded. -/
def parseVal : Nat → List Char → Option (Json × List Char)
  | 0, _ => none
  | fuel + 1, cs =>
      match skipWs cs with
      | [] => none
      | c :: rest =>
          if c = 'n' then
            match rest with
            | 'u' :: 'l' :: 'l' :: r => some (Json.null, r)
            | _ => none
          else if c = 't' then
            match rest with
            | 'r' :: 'u' :: 'e' :: r => some (Json.bool true, r)
            | _ => none
          else if c = 'f' then
            match rest with
            | 'a' :: 'l' :: 's' :: 'e' :: r => some (Json.bool false, r)
            | _ => none
          else if c = '"' then
            (parseStrBody (rest.length + 1) rest).map (fun p => (Json.str p.1, p.2))
          else if c = '[' then
            match skipWs rest with
            | ']' :: r => some (Json.arr [], r)
            | _ => (parseArrItems fuel rest).map (fun p => (Json.arr p.1, p.2))
          else if c = obraceC then
            match skipWs rest with
            | d :: r => if d = cbraceC then some (Json.obj [], r)
                        else (parseObjItems fuel rest).map (fun p => (Json.obj p.1, p.2))
            | [] => none
          else parseNum (c :: rest)

/-- Parse comma-separated array items up to `]`. -/
def parseArrItems : Nat → List Char → Option (List Json × List Char)
  | 0, _ => none
  | fuel + 1, cs =>
      match parseVal fuel cs with
      | none => none
      | some (j, rest) =>
          match skipWs rest with
          | ',' :: r => (parseArrItems fuel r).map (fun p => (j :: p.1, p.2))
          | ']' :: r => some ([j], r)
          | _ => none

/-- Parse comma-separated `"key": value` items up to the closing brace. -/
def parseObjItems : Nat → List Char → Option (List (String × Json) × List Char)
  | 0, _ => none
  | fuel + 1, cs =>
      match skipWs cs with
      | '"' :: rest =>
          match parseStrBody (rest.length + 1) rest with
          | none => none
          | some (k, rest') =>
              match skipWs rest' with
              | ':' :: r =>
                  match parseVal fuel r with
                  | none => none
                  | some (v, rest'') =>
                      match skipWs rest'' with
                      | ',' :: r2 => (parseObjItems fuel r2).map (fun p => ((k, v) :: p.1, p.2))
                      | d :: r2 => if d = cbraceC then some ([(k, v)], r2) else none
                      | [] => none
              | _ => none
      | _ => none

end

/-- Model of `JSON.parse`: `none` models a thrown `SyntaxError`. -/
def parseJson (s : String) : Option Json :=
  match parseVal (s.length + 1) s.data with
  | some (j, rest) => if skipWs rest = [] then some j else none
  | none => none

/-- Observable UI effect: either `populateFormFromPayload` rendered a payload
into the form, or `clearFormForUnitUI` reset it. -/
inductive UIEvent where
  | populated (p : Json)
  | cleared

/-- A network request issued by the engine (the `fetch` calls of `input.js`). -/
inductive NetReq where
  | getUnits
  | postUnitsInit
  | putUnit (unit : Int) (blendId : Json)
  | getBlend (id : Json)
  | postBlend (payload : Json)
  | putBlend (id : Json) (payload : Json)

/-- How a write of the payload-cache localStorage key happened: through the
deferred `schedulePersistPayloadCache` flush, or by a direct
`writePayloadCache(...)` call. -/
inductive WriteVia where
  | scheduled
  | direct
deriving DecidableEq

/-- One recorded write of the payload-cache localStorage key. -/
structure CacheWrite where
  via : WriteVia
  content : String

/-- Abstract DOM form content: the values `collectFormData` would currently
read out of the document (rows, flows, generation, capacities, client
bunkers).  DOM rendering itself is outside the sources and is abstracted to
this record. -/
structure FormState where
  rows : Json
  flows : Json
  generation : Json
  bunkerCapacity : Json
  bunkerCapacities : Json
  clientBunkers : Json

/-- The engine's mutable process state: `window.currentUnit`, the DOM form,
`inMemoryPayloadCache`, `window.serverUnitMap`, the localStorage keys
(`currentUnit`, `__blendIdsByUnit_v1`, `__blendPayloadByUnit_v1`,
`__coalColorMap_v2`), the deferred-persist timer
(`_deferredPayloadWriteTimer`, as the absolute time the flush is due), and
observation traces of UI renders, network requests and payload-cache writes
(most recent first). -/
structure EngineState where
  currentUnit : Int
  form : FormState
  memCache : List (Int × Json)
  serverUnitMap : Json
  lsCurrentUnit : Option String
  lsBlendIds : Option String
  lsPayloadCache : Option String
  lsCoalColorMap : Option String
  persistDue : Option Nat
  uiTrace : List UIEvent
  netTrace : List NetReq
  cacheWriteLog : List CacheWrite

/-- Lookup in the in-memory payload cache (a JS object keyed by unit number). -/
def lookupAssoc : List (Int × Json) → Int → Option Json
  | [], _ => none
  | (k', v') :: t, k => if k' == k then some v' else lookupAssoc t k

/-- Write `inMemoryPayloadCache[k] = v`: replace in place or append. -/
def setAssoc : List (Int × Json) → Int → Json → List (Int × Json)
  | [], k, v => [(k, v)]
  | (k', v') :: t, k, v =>
      if k' == k then (k, v) :: t else (k', v') :: setAssoc t k v

/-- Insertion step for key-sorted serialization order. -/
def insertSorted (p : Int × Json) : List (Int × Json) → List (Int × Json)
  | [] => [p]
  | q :: t => if p.1 ≤ q.1 then p :: q :: t else q :: insertSorted p t

/-- Sort cache entries by unit key (JS objects enumerate integer-like keys in
ascending order, which fixes `JSON.stringify`'s key order for the cache). -/
def sortByKey : List (Int × Json) → List (Int × Json)
  | [] => []
  | p :: t => insertSorted p (sortByKey t)

/-- The in-memory cache viewed as the JS object that gets serialized. -/
def memCacheToJson (mc : List (Int × Json)) : Json :=
  Json.obj ((sortByKey mc).map (fun kv => (toString kv.1, kv.2)))

/-- The `localStorage.getItem(key) || '\x7b\x7d'` pattern: absent or empty
string falls back to the empty-object literal. -/
def lsOrEmptyObj (ls : Option String) : String :=
  match ls with
  | none => obrace ++ cbrace
  | some s => if s = "" then obrace ++ cbrace else s

/-- `readBlendIds()` (input.js:14-17): parse the persisted unit→blend-id map;
a parse error is caught and yields the empty object. -/
def readBlendIds (ls : Option String) : Json :=
  (parseJson (lsOrEmptyObj ls)).getD (Json.obj [])

/-- `readPayloadCache()` (input.js:102-105): parse the persisted unit→payload
cache; a parse error is caught and yields the empty object. -/
def readPayloadCache (ls : Option String) : Json :=
  (parseJson (lsOrEmptyObj ls)).getD (Json.obj [])

/-- `writePayloadCache(obj)` (input.js:106-109): serialize and store under the
payload-cache key; the write is recorded with how it was reached
(deferred flush vs. direct call). -/
def writePayloadCache (via : WriteVia) (j : Json) (st : EngineState) : EngineState :=
  { st with lsPayloadCache := some (printJson j),
            cacheWriteLog := { via := via, content := printJson j } :: st.cacheWriteLog }

/-- `schedulePersistPayloadCache()` (input.js:135-144): no-op if a flush timer
is already pending, otherwise arm a flush 300ms from now. -/
def schedulePersistPayloadCache (now : Nat) (st : EngineState) : EngineState :=
  match st.persistDue with
  | some _ => st
  | none => { st with persistDue := some (now + 300) }

/-- The deferred-flush timer callback (input.js:138-143): serialize the entire
in-memory cache to the payload-cache key and clear the timer. -/
def firePersist (st : EngineState) : EngineState :=
  writePayloadCache WriteVia.scheduled (memCacheToJson st.memCache)
    { st with persistDue := none }

/-- The cleared form (every field reset by `clearFormForUnitUI`). -/
def emptyFormState : FormState :=
  { rows := Json.arr [], flows := Json.arr [], generation := Json.str "",
    bunkerCapacity := Json.str "", bunkerCapacities := Json.arr [],
    clientBunkers := Json.arr [] }

/-- `clearFormForUnitUI()` (input.js:321-373): reset every form field to its
empty default (a pure DOM effect, observed in the UI trace). -/
def clearFormForUnitUI (st : EngineState) : EngineState :=
  { st with form := emptyFormState, uiTrace := UIEvent.cleared :: st.uiTrace }

/-- The form content resulting from rendering a payload: `populateFormFromPayload`
copies the payload's fields into the corresponding DOM inputs. -/
def formOfPayload (p : Json) : FormState :=
  { rows := (getField p "rows").getD Json.null,
    flows := (getField p "flows").getD Json.null,
    generation := (getField p "generation").getD Json.null,
    bunkerCapacity := (getField p "bunkerCapacity").getD Json.null,
    bunkerCapacities := (getField p "bunkerCapacities").getD Json.null,
    clientBunkers := (getField p "clientBunkers").getD Json.null }

/-- `Object.assign(\x7b\x7d, a, b)`: own fields of `a` overridden by those of
`b` (non-objects contribute no fields here). -/
def mergeObjFields (a b : Json) : Json :=
  let fa := match a with | Json.obj kvs => kvs | _ => []
  let fb := match b with | Json.obj kvs => kvs | _ => []
  Json.obj (fb.foldl (fun acc kv => setPairs acc kv.1 kv.2) fa)

/-- `populateFormFromPayload(payload)` (input.js:379-477): a falsy payload
clears the form; otherwise the payload is rendered and, if it carries a
truthy object `coalColorMap`, that map is merged into the persisted
`__coalColorMap_v2` key (a parse error there is caught and skips the write). -/
def populateFormFromPayload (p : Json) (st : EngineState) : EngineState :=
  if jsTruthy p then
    let newColor : Option String :=
      match getField p "coalColorMap" with
      | some m =>
          if jsTruthy m && (match m with | Json.obj _ => true | Json.arr _ => true | _ => false) then
            match parseJson (lsOrEmptyObj st.lsCoalColorMap) with
            | some existing => some (printJson (mergeObjFields existing m))
            | none => st.lsCoalColorMap
          else st.lsCoalColorMap
      | none => st.lsCoalColorMap
    { st with form := formOfPayload p,
              uiTrace := UIEvent.populated p :: st.uiTrace,
              lsCoalColorMap := newColor }
  else clearFormForUnitUI st

/-- `collectFormData()` (input.js:628-723): snapshot the current form into a
payload object; `coalColorMap` is read from the `__coalColorMap_v2`
localStorage key (parse errors caught, yielding the empty object) and `ts`
is `Date.now()`.  Field order matches the object literal at
input.js:713-722. -/
def collectFormData (f : FormState) (lsColor : Option String) (now : Nat) : Json :=
  let coalColorMap := match lsColor with
    | none => Json.obj []
    | some s => if s = "" then Json.obj [] else (parseJson s).getD (Json.obj [])
  Json.obj [("rows", f.rows), ("flows", f.flows), ("generation", f.generation),
            ("ts", Json.num (Int.ofNat now)), ("bunkerCapacity", f.bunkerCapacity),
            ("bunkerCapacities", f.bunkerCapacities), ("coalColorMap", coalColorMap),
            ("clientBunkers", f.clientBunkers)]

/-- The unit resolution `Number(window.currentUnit || localStorage.getItem('currentUnit') || 1)`
used by `saveTransientToMemory` (a stored non-numeric selector string is
collapsed to 1 at this model boundary). -/
def stUnitNumber (st : EngineState) : Int :=
  if st.currentUnit != 0 then st.currentUnit
  else match st.lsCurrentUnit with
    | none => 1
    | some s =>
        if s = "" then 1
        else match parseJson s with
          | some (Json.num n) => n
          | _ => 1

/-- `saveTransientToMemory()` (input.js:155-164): snapshot the form into the
memory tier under the active unit and schedule the deferred durable flush. -/
def saveTransientToMemory (now : Nat) (st : EngineState) : EngineState :=
  let unit := stUnitNumber st
  let payload := collectFormData st.form st.lsCoalColorMap now
  let st' := { st with memCache := setAssoc st.memCache unit payload }
  schedulePersistPayloadCache now st'

/-- `fetchServerUnitMap()` (input.js:46-61): `GET /units`; on success persist
the fetched map to the local fallback key and install `map || \x7b\x7d` as the
process-wide map; on a non-ok status or a thrown error return the empty
object and leave state untouched.  `resp` is the network outcome (`none`
models failure). -/
def fetchServerUnitMap (resp : Option Json) (st : EngineState) : Json × EngineState :=
  let st' := { st with netTrace := NetReq.getUnits :: st.netTrace }
  match resp with
  | none => (Json.obj [], st')
  | some map =>
      let st'' := { st' with lsBlendIds := some (printJson map) }
      let m := jsOr map (Json.obj [])
      (m, { st'' with serverUnitMap := m })

/-- Network outcome of `POST /units/init`. -/
inductive InitOutcome where
  | threw
  | notOk
  | ok (data : Json)

/-- Network oracle for one `ensureServerUnitMapping()` run. -/
structure EnsureOracle where
  fetch1 : Option Json
  initResp : InitOutcome
  fetch2 : Option Json

/-- `ensureServerUnitMapping()` (input.js:63-84): fetch the map; if it has
truthy entries for units 1, 2 and 3, return it; otherwise `POST /units/init`:
on a non-ok status re-fetch and return that; on success return
`data.map || \x7b\x7d` (also installing and persisting it); on a thrown error
(or a null body, whose `data.map` access throws into the catch) return the
empty object. -/
def ensureServerUnitMapping (o : EnsureOracle) (st : EngineState) : Json × EngineState :=
  match fetchServerUnitMap o.fetch1 st with
  | (map, st1) =>
    if jsTruthy map && truthyOpt (getField map "1") && truthyOpt (getField map "2")
        && truthyOpt (getField map "3") then
      (map, st1)
    else
      let st2 := { st1 with netTrace := NetReq.postUnitsInit :: st1.netTrace }
      match o.initResp with
      | InitOutcome.threw => (Json.obj [], st2)
      | InitOutcome.notOk => fetchServerUnitMap o.fetch2 st2
      | InitOutcome.ok Json.null => (Json.obj [], st2)
      | InitOutcome.ok data =>
          let createdMap := match firstTruthy [getField data "map"] with
            | some m => m
            | none => Json.obj []
          (createdMap, { st2 with serverUnitMap := createdMap,
                                  lsBlendIds := some (printJson createdMap) })

/-- The unit resolution `Number(unit || window.currentUnit || 1)`. -/
def effUnit (unit : Int) (st : EngineState) : Int :=
  if unit != 0 then unit
  else if st.currentUnit != 0 then st.currentUnit
  else 1

/-- `getBlendIdForUnit(unit)` (input.js:86-97): prefer a truthy entry of the
in-memory server map; else refresh it with one `GET /units` and re-check;
else fall back to a truthy entry of the locally persisted map; else null. -/
def getBlendIdForUnit (unit : Int) (resp : Option Json) (st : EngineState) :
    Option Json × EngineState :=
  if effUnit unit st == 0 then (none, st)
  else if truthyOpt (getField st.serverUnitMap (toString (effUnit unit st))) then
    (getField st.serverUnitMap (toString (effUnit unit st)), st)
  else if truthyOpt (getField (fetchServerUnitMap resp st).2.serverUnitMap
      (toString (effUnit unit st))) then
    (getField (fetchServerUnitMap resp st).2.serverUnitMap (toString (effUnit unit st)),
     (fetchServerUnitMap resp st).2)
  else if truthyOpt (getField (readBlendIds (fetchServerUnitMap resp st).2.lsBlendIds)
      (toString (effUnit unit st))) then
    (getField (readBlendIds (fetchServerUnitMap resp st).2.lsBlendIds)
      (toString (effUnit unit st)),
     (fetchServerUnitMap resp st).2)
  else (none, (fetchServerUnitMap resp st).2)

/-- The clamp `u = Number(u) || 1; if (u < 1) u = 1; if (u > 3) u = 3`. -/
def clampUnit (u : Int) : Int :=
  let u' := if u == 0 then 1 else u
  if u' < 1 then 1 else if u' > 3 then 3 else u'

/-- The synchronous body of `setCurrentUnitFast(u)` (input.js:179-218): flush
the active unit's form to the memory tier, select and persist the clamped
unit, then instantly render from the memory tier, else from a quick parse of
the durable payload-cache string (seeding the memory tier), else clear the
form.  The fire-and-forget background reconciliation and prefetch tasks it
spawns are modelled separately (`backgroundFetch`), so no network request
happens here. -/
def setCurrentUnitFastSync (u : Int) (now : Nat) (st : EngineState) : EngineState :=
  let st1 := saveTransientToMemory now st
  let u' := clampUnit u
  let st2 := { st1 with currentUnit := u', lsCurrentUnit := some (toString u') }
  let entry := lookupAssoc st2.memCache u'
  if truthyOpt entry then populateFormFromPayload (entry.getD Json.null) st2
  else
    match st2.lsPayloadCache with
    | some lsStr =>
        if lsStr ≠ "" then
          match parseJson lsStr with
          | some parsed =>
              if truthyOpt (getField parsed (toString u')) then
                let p := (getField parsed (toString u')).getD Json.null
                populateFormFromPayload p
                  { st2 with memCache := setAssoc st2.memCache u' p }
              else clearFormForUnitUI st2
          | none => clearFormForUnitUI st2
        else clearFormForUnitUI st2
    | none => clearFormForUnitUI st2

/-- The response unwrapping `data.payload || data.data || data` used by the
background reconciliation fetch of `setCurrentUnitFast` (input.js:229) and by
`prefetchOtherUnits` (input.js:267). -/
def unwrapBg (data : Json) : Json :=
  match firstTruthy [getField data "payload", getField data "data"] with
  | some p => p
  | none => data

/-- The payload-shape test of `loadUnitData` (input.js:526):
`data && (data.rows || data.flows || data.clientBunkers)`. -/
def hasPayloadShape (data : Json) : Bool :=
  jsTruthy data && (truthyOpt (getField data "rows") || truthyOpt (getField data "flows")
    || truthyOpt (getField data "clientBunkers"))

/-- The response unwrapping of `loadUnitData` (input.js:526): keep the
top-level object when it has the payload shape, else take a truthy nested
`data` field, else keep the top-level value. -/
def unwrapLoad (data : Json) : Json :=
  if hasPayloadShape data then data
  else if jsTruthy data && truthyOpt (getField data "data") then
    (getField data "data").getD data
  else data

/-- Network oracle for one background reconciliation task. -/
structure BgOracle where
  unitsFetch : Option Json
  blendResp : Option Json

/-- The background reconciliation task spawned by `setCurrentUnitFast`
(input.js:222-242): resolve the unit's blend id (stopping if absent), fetch
the blend record, unwrap it, and only when the serialized candidate differs
from the serialized cached entry overwrite the memory tier, re-render the UI
and schedule a durable persist.  A null body's `data.payload` access throws
into the task's catch, which swallows it. -/
def backgroundFetch (u : Int) (o : BgOracle) (now : Nat) (st : EngineState) : EngineState :=
  match getBlendIdForUnit u o.unitsFetch st with
  | (none, st1) => st1
  | (some idj, st1) =>
      let st2 := { st1 with netTrace := NetReq.getBlend idj :: st1.netTrace }
      match o.blendResp with
      | none => st2
      | some Json.null => st2
      | some data =>
          let payload := unwrapBg data
          let oldStr := printJson (jsOr ((lookupAssoc st2.memCache u).getD Json.null) (Json.obj []))
          let newStr := printJson (jsOr payload (Json.obj []))
          if oldStr ≠ newStr then
            let st3 := { st2 with memCache := setAssoc st2.memCache u payload }
            let st4 := populateFormFromPayload payload st3
            schedulePersistPayloadCache now st4
          else st2

/-- Network oracle for one `loadUnitData` run. -/
structure LoadOracle where
  unitsFetch : Option Json
  blendResp : Option Json

/-- `loadUnitData(unit)` (input.js:485-555): render a truthy cached payload
immediately; resolve the unit's blend id (clearing the form and returning
null when there is neither id nor cached entry); fetch the blend record
(same fallback on failure); on success unwrap, render, write the payload
directly into the durable payload-cache key and the memory tier, and return
it. -/
def loadUnitData (unit : Int) (o : LoadOracle) (st : EngineState) :
    Option Json × EngineState :=
  let u := effUnit unit st
  let cache := readPayloadCache st.lsPayloadCache
  let st1 := if truthyOpt (getField cache (toString u)) then
               populateFormFromPayload ((getField cache (toString u)).getD Json.null) st
             else st
  match getBlendIdForUnit u o.unitsFetch st1 with
  | (none, st2) =>
      let cache2 := readPayloadCache st2.lsPayloadCache
      if truthyOpt (getField cache2 (toString u)) then (none, st2)
      else (none, clearFormForUnitUI st2)
  | (some idj, st2) =>
      let st3 := { st2 with netTrace := NetReq.getBlend idj :: st2.netTrace }
      match o.blendResp with
      | none =>
          let cache3 := readPayloadCache st3.lsPayloadCache
          if truthyOpt (getField cache3 (toString u)) then (none, st3)
          else (none, clearFormForUnitUI st3)
      | some data =>
          let payload := unwrapLoad data
          let st4 := populateFormFromPayload payload st3
          let cache4 := readPayloadCache st4.lsPayloadCache
          let cache5 := setField cache4 (toString u) payload
          let st5 := writePayloadCache WriteVia.direct cache5 st4
          (some payload, { st5 with memCache := setAssoc st5.memCache u payload })

/-- Network oracle for one `saveToServer` run. -/
structure SaveOracle where
  unitsFetch1 : Option Json
  saveResp : Option Json
  unitsPutThrew : Bool
  unitsFetch2 : Option Json

/-- `saveToServer()` (input.js:737-816): collect the payload, read the local
fallback ids, resolve the active unit's blend id; `PUT /blend/:id` when an id
resolved, else `POST /blend`.  On a successful create (`data.id || data._id`
truthy), write the returned id into the local fallback map, `PUT /units/:unit`
and (unless that threw) refresh the server map.  Finally write the saved (or
server-echoed) payload directly into the durable payload-cache key and the
memory tier.  A failed save request (or a null body, whose `data.id` access
throws) alerts and changes nothing further. -/
def saveToServer (o : SaveOracle) (now : Nat) (st : EngineState) : EngineState :=
  let payload := collectFormData st.form st.lsCoalColorMap now
  let ids := readBlendIds st.lsBlendIds
  let unit := if st.currentUnit != 0 then st.currentUnit else 1
  match getBlendIdForUnit unit o.unitsFetch1 st with
  | (idOpt, st1) =>
    let st2 := match idOpt with
      | some idj => { st1 with netTrace := NetReq.putBlend idj payload :: st1.netTrace }
      | none => { st1 with netTrace := NetReq.postBlend payload :: st1.netTrace }
    match o.saveResp with
    | none => st2
    | some Json.null => st2
    | some data =>
      let returnedId := firstTruthy [getField data "id", getField data "_id"]
      let st3 :=
        match idOpt, returnedId with
        | none, some rid =>
            let ids2 := setField ids (toString unit) rid
            let stA := { st2 with lsBlendIds := some (printJson ids2) }
            let stB := { stA with netTrace := NetReq.putUnit unit rid :: stA.netTrace }
            if o.unitsPutThrew then stB
            else (fetchServerUnitMap o.unitsFetch2 stB).2
        | _, _ => st2
      let cache := readPayloadCache st3.lsPayloadCache
      let serverPayload := firstTruthy [getField data "payload", getField data "data"]
      let entry := match serverPayload with
        | some sp => sp
        | none => payload
      let cache2 := setField cache (toString unit) entry
      let st4 := writePayloadCache WriteVia.direct cache2 st3
      { st4 with memCache := setAssoc st4.memCache unit entry }

/-- Modelled from the spec: the backend's `PUT /units/:unit` handler (the
server code is not under `src/`).  Per spec §6 it "associates a unit with a
newly created record id", and `GET /units` then returns the updated
unit-number-string → record-id mapping. -/
def serverPutUnit (unitsMap : Json) (unit : Int) (blendId : Json) : Json :=
  setField unitsMap (toString unit) blendId

/-- State of one debounced-autosave simulation: the pending debounce timer
(absolute due time), the engine, and the payloads captured so far (in firing
order). -/
structure DebounceState where
  timer : Option Nat
  st : EngineState
  captures : List Json

/-- Fire the pending debounce timer at its due time: run
`saveTransientToMemory` and record the captured payload. -/
def debFire (due : Nat) (d : DebounceState) : DebounceState :=
  { timer := none,
    st := saveTransientToMemory due d.st,
    captures := d.captures ++ [collectFormData d.st.form d.st.lsCoalColorMap due] }

/-- One edit event at time `t` leaving the form in state `f`: a debounce timer
already due has fired first (event-loop order); then
`debounce(saveTransientToMemory, 180)` clears any pending timer and re-arms
it 180ms from now (input.js:148-154, 165). -/
def debEvent (d : DebounceState) (t : Nat) (f : FormState) : DebounceState :=
  let d1 := match d.timer with
    | some due => if due ≤ t then debFire due d else d
    | none => d
  { d1 with timer := some (t + 180), st := { d1.st with form := f } }

/-- Run a sequence of edit events, then let the final pending debounce timer
fire. -/
def runDebounce (events : List (Nat × FormState)) (d : DebounceState) : DebounceState :=
  let d1 := events.foldl (fun d e => debEvent d e.1 e.2) d
  match d1.timer with
  | some due => debFire due d1
  | none => d1

/-- One `schedulePersistPayloadCache` call at time `t`, with a flush timer
already due having fired first (event-loop order). -/
def schedStep (st : EngineState) (t : Nat) : EngineState :=
  let st1 := match st.persistDue with
    | some due => if due ≤ t then firePersist st else st
    | none => st
  schedulePersistPayloadCache t st1

/-- Run a sequence of `schedulePersistPayloadCache` calls (at the given
times), then let the final pending flush timer fire. -/
def runSched (ts : List Nat) (st : EngineState) : EngineState :=
  let st1 := ts.foldl schedStep st
  match st1.persistDue with
  | some _ => firePersist st1
  | none => st1

/-- A JavaScript number (or null) as fed to `secondsToHHMMSS`: NaN, the two
infinities, `null`, or a finite value modelled as a rational. -/
inductive JSNumber where
  | nan
  | posInf
  | negInf
  | nullv
  | fin (q : ℚ)
deriving DecidableEq

/-- `Math.round`: round half towards positive infinity. -/
def mathRound (q : ℚ) : Int := Int.floor (q + 1 / 2)

/-- `String(n).padStart(2, '0')` for a natural number. -/
def pad2 (n : Nat) : String := if n < 10 then "0" ++ toString n else toString n

/-- `secondsToHHMMSS(secondsRaw)` (input.js:619-626, inputfinal.js:92-99):
`!isFinite(secondsRaw) || secondsRaw === null` catches NaN, the infinities
and null and yields `00:00:00`; otherwise clamp `Math.round` below by 0 and
format as zero-padded H:M:S. -/
def secondsToHHMMSS : JSNumber → String
  | JSNumber.fin q =>
      let s : Nat := (max 0 (mathRound q)).toNat
      pad2 (s / 3600) ++ ":" ++ pad2 (s % 3600 / 60) ++ ":" ++ pad2 (s % 60)
  | _ => "00:00:00"

/-- The `have3` test of `ensureServerUnitMapping` (input.js:66):
`map && map['1'] && map['2'] && map['3']` as a condition. -/
def hasAllThreeUnits (m : Json) : Bool :=
  jsTruthy m && truthyOpt (getField m "1") && truthyOpt (getField m "2")
    && truthyOpt (getField m "3")

/-- Whether a value is a JS object literal. -/
def isObjJson : Json → Bool
  | Json.obj _ => true
  | _ => false

/-- A blank form, as on first page load. -/
def initForm : FormState :=
  { rows := Json.arr [], flows := Json.arr [], generation := Json.str "",
    bunkerCapacity := Json.str "", bunkerCapacities := Json.arr [],
    clientBunkers := Json.arr [] }

/-- A fresh engine state: unit 1 active, all caches and stores empty. -/
def initState : EngineState :=
  { currentUnit := 1, form := initForm, memCache := [], serverUnitMap := Json.obj [],
    lsCurrentUnit := none, lsBlendIds := none, lsPayloadCache := none,
    lsCoalColorMap := none, persistDue := none, uiTrace := [], netTrace := [],
    cacheWriteLog := [] }

/-- A state with the durable payload-cache key erased: two runs whose states
agree after `stripLsPayload` agree on every component except the raw stored
payload-cache string. -/
def stripLsPayload (st : EngineState) : EngineState :=
  { st with lsPayloadCache := none }

/-! ## Basic lemmas about the cache and JSON helpers -/

theorem lookupAssoc_setAssoc_self (l : List (Int × Json)) (k : Int) (v : Json) :
    lookupAssoc (setAssoc l k v) k = some v := by
  induction l with
  | nil => simp [setAssoc, lookupAssoc]
  | cons p t ih =>
      obtain ⟨k0, v0⟩ := p
      by_cases h : k0 = k
      · simp [setAssoc, h, lookupAssoc]
      · simp [setAssoc, h, lookupAssoc, ih]

theorem lookupAssoc_setAssoc_ne (l : List (Int × Json)) (k k' : Int) (v : Json)
    (h : k ≠ k') : lookupAssoc (setAssoc l k v) k' = lookupAssoc l k' := by
  induction l with
  | nil => simp [setAssoc, lookupAssoc, h]
  | cons p t ih =>
      obtain ⟨k0, v0⟩ := p
      by_cases h0 : k0 = k
      · subst h0
        simp [setAssoc, lookupAssoc, h]
      · by_cases h1 : k0 = k'
        · subst h1
          simp [setAssoc, h0, lookupAssoc]
        · simp [setAssoc, h0, h1, lookupAssoc, ih]

theorem findPair_setPairs_self (kvs : List (String × Json)) (k : String) (v : Json) :
    findPair (setPairs kvs k v) k = some v := by
  induction kvs with
  | nil => simp [setPairs, findPair]
  | cons p t ih =>
      obtain ⟨k0, v0⟩ := p
      by_cases h0 : k0 = k
      · simp [setPairs, h0, findPair]
      · simp [setPairs, h0, findPair, ih]

theorem getField_setField_self (kvs : List (String × Json)) (k : String) (v : Json) :
    getField (setField (Json.obj kvs) k v) k = some v := by
  simp [setField, getField, findPair_setPairs_self]

theorem firstTruthy_truthy : ∀ {l : List (Option Json)} {x : Json},
    firstTruthy l = some x → jsTruthy x = true := by
  intro l
  induction l with
  | nil => intro x h; simp [firstTruthy] at h
  | cons o t ih =>
      intro x h
      unfold firstTruthy at h
      by_cases ho : truthyOpt o = true
      · rw [if_pos ho] at h
        cases o with
        | none => simp [truthyOpt] at ho
        | some j => cases h; simpa [truthyOpt] using ho
      · rw [if_neg ho] at h
        exact ih h

theorem jsTruthy_collectFormData (f : FormState) (c : Option String) (n : Nat) :
    jsTruthy (collectFormData f c n) = true := rfl

theorem getField_collect_coalColorMap (f : FormState) (c : Option String) (n : Nat) :
    (getField (collectFormData f c n) "coalColorMap").isSome = true := rfl

/-! ## Which state components each operation touches -/

theorem sched_memCache (now : Nat) (st : EngineState) :
    (schedulePersistPayloadCache now st).memCache = st.memCache := by
  unfold schedulePersistPayloadCache; split <;> rfl

theorem sched_form (now : Nat) (st : EngineState) :
    (schedulePersistPayloadCache now st).form = st.form := by
  unfold schedulePersistPayloadCache; split <;> rfl

theorem sched_uiTrace (now : Nat) (st : EngineState) :
    (schedulePersistPayloadCache now st).uiTrace = st.uiTrace := by
  unfold schedulePersistPayloadCache; split <;> rfl

theorem sched_netTrace (now : Nat) (st : EngineState) :
    (schedulePersistPayloadCache now st).netTrace = st.netTrace := by
  unfold schedulePersistPayloadCache; split <;> rfl

theorem sched_cacheWriteLog (now : Nat) (st : EngineState) :
    (schedulePersistPayloadCache now st).cacheWriteLog = st.cacheWriteLog := by
  unfold schedulePersistPayloadCache; split <;> rfl

theorem sched_lsPayloadCache (now : Nat) (st : EngineState) :
    (schedulePersistPayloadCache now st).lsPayloadCache = st.lsPayloadCache := by
  unfold schedulePersistPayloadCache; split <;> rfl

theorem sched_lsBlendIds (now : Nat) (st : EngineState) :
    (schedulePersistPayloadCache now st).lsBlendIds = st.lsBlendIds := by
  unfold schedulePersistPayloadCache; split <;> rfl

theorem sched_lsCurrentUnit (now : Nat) (st : EngineState) :
    (schedulePersistPayloadCache now st).lsCurrentUnit = st.lsCurrentUnit := by
  unfold schedulePersistPayloadCache; split <;> rfl

theorem sched_lsCoalColorMap (now : Nat) (st : EngineState) :
    (schedulePersistPayloadCache now st).lsCoalColorMap = st.lsCoalColorMap := by
  unfold schedulePersistPayloadCache; split <;> rfl

theorem sched_currentUnit (now : Nat) (st : EngineState) :
    (schedulePersistPayloadCache now st).currentUnit = st.currentUnit := by
  unfold schedulePersistPayloadCache; split <;> rfl

theorem sched_serverUnitMap (now : Nat) (st : EngineState) :
    (schedulePersistPayloadCache now st).serverUnitMap = st.serverUnitMap := by
  unfold schedulePersistPayloadCache; split <;> rfl

theorem sched_persistDue_isSome (now : Nat) (st : EngineState) :
    (schedulePersistPayloadCache now st).persistDue.isSome = true := by
  unfold schedulePersistPayloadCache
  cases h : st.persistDue <;> simp [h]

theorem clear_memCache (st : EngineState) :
    (clearFormForUnitUI st).memCache = st.memCache := rfl

theorem clear_netTrace (st : EngineState) :
    (clearFormForUnitUI st).netTrace = st.netTrace := rfl

theorem clear_cacheWriteLog (st : EngineState) :
    (clearFormForUnitUI st).cacheWriteLog = st.cacheWriteLog := rfl

theorem clear_currentUnit (st : EngineState) :
    (clearFormForUnitUI st).currentUnit = st.currentUnit := rfl

theorem clear_lsCurrentUnit (st : EngineState) :
    (clearFormForUnitUI st).lsCurrentUnit = st.lsCurrentUnit := rfl

theorem clear_lsPayloadCache (st : EngineState) :
    (clearFormForUnitUI st).lsPayloadCache = st.lsPayloadCache := rfl

theorem clear_lsBlendIds (st : EngineState) :
    (clearFormForUnitUI st).lsBlendIds = st.lsBlendIds := rfl

theorem clear_lsCoalColorMap (st : EngineState) :
    (clearFormForUnitUI st).lsCoalColorMap = st.lsCoalColorMap := rfl

theorem clear_serverUnitMap (st : EngineState) :
    (clearFormForUnitUI st).serverUnitMap = st.serverUnitMap := rfl

theorem clear_persistDue (st : EngineState) :
    (clearFormForUnitUI st).persistDue = st.persistDue := rfl

theorem clear_form (st : EngineState) :
    (clearFormForUnitUI st).form = emptyFormState := rfl

theorem clear_uiTrace (st : EngineState) :
    (clearFormForUnitUI st).uiTrace = UIEvent.cleared :: st.uiTrace := rfl

theorem populate_memCache (p : Json) (st : EngineState) :
    (populateFormFromPayload p st).memCache = st.memCache := by
  unfold populateFormFromPayload clearFormForUnitUI
  repeat' split
  all_goals rfl

theorem populate_netTrace (p : Json) (st : EngineState) :
    (populateFormFromPayload p st).netTrace = st.netTrace := by
  unfold populateFormFromPayload clearFormForUnitUI
  repeat' split
  all_goals rfl

theorem populate_cacheWriteLog (p : Json) (st : EngineState) :
    (populateFormFromPayload p st).cacheWriteLog = st.cacheWriteLog := by
  unfold populateFormFromPayload clearFormForUnitUI
  repeat' split
  all_goals rfl

theorem populate_currentUnit (p : Json) (st : EngineState) :
    (populateFormFromPayload p st).currentUnit = st.currentUnit := by
  unfold populateFormFromPayload clearFormForUnitUI
  repeat' split
  all_goals rfl

theorem populate_lsCurrentUnit (p : Json) (st : EngineState) :
    (populateFormFromPayload p st).lsCurrentUnit = st.lsCurrentUnit := by
  unfold populateFormFromPayload clearFormForUnitUI
  repeat' split
  all_goals rfl

theorem populate_lsPayloadCache (p : Json) (st : EngineState) :
    (populateFormFromPayload p st).lsPayloadCache = st.lsPayloadCache := by
  unfold populateFormFromPayload clearFormForUnitUI
  repeat' split
  all_goals rfl

theorem populate_lsBlendIds (p : Json) (st : EngineState) :
    (populateFormFromPayload p st).lsBlendIds = st.lsBlendIds := by
  unfold populateFormFromPayload clearFormForUnitUI
  repeat' split
  all_goals rfl

theorem populate_serverUnitMap (p : Json) (st : EngineState) :
    (populateFormFromPayload p st).serverUnitMap = st.serverUnitMap := by
  unfold populateFormFromPayload clearFormForUnitUI
  repeat' split
  all_goals rfl

theorem populate_persistDue (p : Json) (st : EngineState) :
    (populateFormFromPayload p st).persistDue = st.persistDue := by
  unfold populateFormFromPayload clearFormForUnitUI
  repeat' split
  all_goals rfl

theorem populate_form_of_truthy (p : Json) (st : EngineState) (h : jsTruthy p = true) :
    (populateFormFromPayload p st).form = formOfPayload p := by
  unfold populateFormFromPayload
  rw [if_pos h]

theorem populate_uiTrace_of_truthy (p : Json) (st : EngineState) (h : jsTruthy p = true) :
    (populateFormFromPayload p st).uiTrace = UIEvent.populated p :: st.uiTrace := by
  unfold populateFormFromPayload
  rw [if_pos h]

theorem saveTransient_memCache (now : Nat) (st : EngineState) :
    (saveTransientToMemory now st).memCache =
      setAssoc st.memCache (stUnitNumber st)
        (collectFormData st.form st.lsCoalColorMap now) := by
  unfold saveTransientToMemory
  rw [sched_memCache]

theorem saveTransient_form (now : Nat) (st : EngineState) :
    (saveTransientToMemory now st).form = st.form := by
  unfold saveTransientToMemory
  rw [sched_form]

theorem saveTransient_uiTrace (now : Nat) (st : EngineState) :
    (saveTransientToMemory now st).uiTrace = st.uiTrace := by
  unfold saveTransientToMemory
  rw [sched_uiTrace]

theorem saveTransient_netTrace (now : Nat) (st : EngineState) :
    (saveTransientToMemory now st).netTrace = st.netTrace := by
  unfold saveTransientToMemory
  rw [sched_netTrace]

theorem saveTransient_cacheWriteLog (now : Nat) (st : EngineState) :
    (saveTransientToMemory now st).cacheWriteLog = st.cacheWriteLog := by
  unfold saveTransientToMemory
  rw [sched_cacheWriteLog]

theorem saveTransient_lsPayloadCache (now : Nat) (st : EngineState) :
    (saveTransientToMemory now st).lsPayloadCache = st.lsPayloadCache := by
  unfold saveTransientToMemory
  rw [sched_lsPayloadCache]

theorem saveTransient_lsBlendIds (now : Nat) (st : EngineState) :
    (saveTransientToMemory now st).lsBlendIds = st.lsBlendIds := by
  unfold saveTransientToMemory
  rw [sched_lsBlendIds]

theorem saveTransient_lsCurrentUnit (now : Nat) (st : EngineState) :
    (saveTransientToMemory now st).lsCurrentUnit = st.lsCurrentUnit := by
  unfold saveTransientToMemory
  rw [sched_lsCurrentUnit]

theorem saveTransient_lsCoalColorMap (now : Nat) (st : EngineState) :
    (saveTransientToMemory now st).lsCoalColorMap = st.lsCoalColorMap := by
  unfold saveTransientToMemory
  rw [sched_lsCoalColorMap]

theorem saveTransient_currentUnit (now : Nat) (st : EngineState) :
    (saveTransientToMemory now st).currentUnit = st.currentUnit := by
  unfold saveTransientToMemory
  rw [sched_currentUnit]

theorem saveTransient_serverUnitMap (now : Nat) (st : EngineState) :
    (saveTransientToMemory now st).serverUnitMap = st.serverUnitMap := by
  unfold saveTransientToMemory
  rw [sched_serverUnitMap]

theorem fetch_memCache (r : Option Json) (st : EngineState) :
    (fetchServerUnitMap r st).2.memCache = st.memCache := by
  unfold fetchServerUnitMap
  split <;> rfl

theorem fetch_form (r : Option Json) (st : EngineState) :
    (fetchServerUnitMap r st).2.form = st.form := by
  unfold fetchServerUnitMap
  split <;> rfl

theorem fetch_uiTrace (r : Option Json) (st : EngineState) :
    (fetchServerUnitMap r st).2.uiTrace = st.uiTrace := by
  unfold fetchServerUnitMap
  split <;> rfl

theorem fetch_cacheWriteLog (r : Option Json) (st : EngineState) :
    (fetchServerUnitMap r st).2.cacheWriteLog = st.cacheWriteLog := by
  unfold fetchServerUnitMap
  split <;> rfl

theorem fetch_lsPayloadCache (r : Option Json) (st : EngineState) :
    (fetchServerUnitMap r st).2.lsPayloadCache = st.lsPayloadCache := by
  unfold fetchServerUnitMap
  split <;> rfl

theorem fetch_lsCurrentUnit (r : Option Json) (st : EngineState) :
    (fetchServerUnitMap r st).2.lsCurrentUnit = st.lsCurrentUnit := by
  unfold fetchServerUnitMap
  split <;> rfl

theorem fetch_lsCoalColorMap (r : Option Json) (st : EngineState) :
    (fetchServerUnitMap r st).2.lsCoalColorMap = st.lsCoalColorMap := by
  unfold fetchServerUnitMap
  split <;> rfl

theorem fetch_currentUnit (r : Option Json) (st : EngineState) :
    (fetchServerUnitMap r st).2.currentUnit = st.currentUnit := by
  unfold fetchServerUnitMap
  split <;> rfl

theorem fetch_persistDue (r : Option Json) (st : EngineState) :
    (fetchServerUnitMap r st).2.persistDue = st.persistDue := by
  unfold fetchServerUnitMap
  split <;> rfl

theorem fetch_netTrace (r : Option Json) (st : EngineState) :
    (fetchServerUnitMap r st).2.netTrace = NetReq.getUnits :: st.netTrace := by
  unfold fetchServerUnitMap
  split <;> rfl

theorem getBlendId_memCache (u : Int) (r : Option Json) (st : EngineState) :
    (getBlendIdForUnit u r st).2.memCache = st.memCache := by
  unfold getBlendIdForUnit
  repeat' split
  all_goals simp [fetch_memCache]

theorem getBlendId_form (u : Int) (r : Option Json) (st : EngineState) :
    (getBlendIdForUnit u r st).2.form = st.form := by
  unfold getBlendIdForUnit
  repeat' split
  all_goals simp [fetch_form]

theorem getBlendId_uiTrace (u : Int) (r : Option Json) (st : EngineState) :
    (getBlendIdForUnit u r st).2.uiTrace = st.uiTrace := by
  unfold getBlendIdForUnit
  repeat' split
  all_goals simp [fetch_uiTrace]

theorem getBlendId_cacheWriteLog (u : Int) (r : Option Json) (st : EngineState) :
    (getBlendIdForUnit u r st).2.cacheWriteLog = st.cacheWriteLog := by
  unfold getBlendIdForUnit
  repeat' split
  all_goals simp [fetch_cacheWriteLog]

theorem getBlendId_lsPayloadCache (u : Int) (r : Option Json) (st : EngineState) :
    (getBlendIdForUnit u r st).2.lsPayloadCache = st.lsPayloadCache := by
  unfold getBlendIdForUnit
  repeat' split
  all_goals simp [fetch_lsPayloadCache]

theorem getBlendId_lsCurrentUnit (u : Int) (r : Option Json) (st : EngineState) :
    (getBlendIdForUnit u r st).2.lsCurrentUnit = st.lsCurrentUnit := by
  unfold getBlendIdForUnit
  repeat' split
  all_goals simp [fetch_lsCurrentUnit]

theorem getBlendId_lsCoalColorMap (u : Int) (r : Option Json) (st : EngineState) :
    (getBlendIdForUnit u r st).2.lsCoalColorMap = st.lsCoalColorMap := by
  unfold getBlendIdForUnit
  repeat' split
  all_goals simp [fetch_lsCoalColorMap]

theorem getBlendId_currentUnit (u : Int) (r : Option Json) (st : EngineState) :
    (getBlendIdForUnit u r st).2.currentUnit = st.currentUnit := by
  unfold getBlendIdForUnit
  repeat' split
  all_goals simp [fetch_currentUnit]

theorem getBlendId_persistDue (u : Int) (r : Option Json) (st : EngineState) :
    (getBlendIdForUnit u r st).2.persistDue = st.persistDue := by
  unfold getBlendIdForUnit
  repeat' split
  all_goals simp [fetch_persistDue]

theorem fetch_fst (r : Option Json) (st st' : EngineState) :
    (fetchServerUnitMap r st).1 = (fetchServerUnitMap r st').1 := by
  unfold fetchServerUnitMap
  cases r <;> rfl

theorem truthyOpt_ne_none {o : Option Json} (h : truthyOpt o = true) : o ≠ none := by
  intro hn
  rw [hn] at h
  simp [truthyOpt] at h

/-! ## Claim theorems -/

/-- C10: `secondsToHHMMSS` returns `"00:00:00"` for every input that is not a
finite number (NaN, the infinities, null); for a finite input it returns the
zero-padded `HH:MM:SS` rendering whose encoded total in seconds equals
`max 0 (round s)`; in particular every negative input formats as
`"00:00:00"`. -/
theorem C10_secondsToHHMMSS_spec (x : JSNumber) :
    ((∀ q : ℚ, x ≠ JSNumber.fin q) → secondsToHHMMSS x = "00:00:00") ∧
    (∀ q : ℚ, x = JSNumber.fin q →
      (secondsToHHMMSS x =
         pad2 ((max 0 (mathRound q)).toNat / 3600) ++ ":" ++
         pad2 ((max 0 (mathRound q)).toNat % 3600 / 60) ++ ":" ++
         pad2 ((max 0 (mathRound q)).toNat % 60) ∧
       (max 0 (mathRound q)).toNat / 3600 * 3600 +
         (max 0 (mathRound q)).toNat % 3600 / 60 * 60 +
         (max 0 (mathRound q)).toNat % 60 = (max 0 (mathRound q)).toNat ∧
       (q < 0 → secondsToHHMMSS x = "00:00:00"))) := by
  constructor
  · intro h
    cases x with
    | fin q => exact absurd rfl (h q)
    | nan => rfl
    | posInf => rfl
    | negInf => rfl
    | nullv => rfl
  · intro q hq
    subst hq
    refine ⟨rfl, by omega, ?_⟩
    intro hneg
    have h1 : mathRound q < 1 := by
      apply Int.floor_lt.mpr
      push_cast
      linarith
    have h0 : max 0 (mathRound q) = 0 := by omega
    show secondsToHHMMSS (JSNumber.fin q) = "00:00:00"
    simp only [secondsToHHMMSS, h0]
    rfl

/-- Witness for C10: NaN and a negative finite input both format as
`"00:00:00"`. -/
theorem C10_witness :
    secondsToHHMMSS JSNumber.nan = "00:00:00" ∧
    ((-7 : ℚ) < 0 ∧ secondsToHHMMSS (JSNumber.fin (-7)) = "00:00:00") :=
  ⟨(C10_secondsToHHMMSS_spec JSNumber.nan).1 (fun _ h => JSNumber.noConfusion h),
   ⟨by norm_num,
    ((C10_secondsToHHMMSS_spec (JSNumber.fin (-7))).2 (-7) rfl).2.2 (by norm_num)⟩⟩

/-- C6 counterexample: a response that already has the expected payload shape
(`loadUnitData`'s own shape test accepts it) but also carries a truthy nested
`payload` field is unwrapped by the background-fetch path to the nested
field, not to the top-level object the claim requires. -/
theorem C6_counterexample :
    hasPayloadShape (Json.obj [("rows", Json.arr [Json.num 1]),
        ("payload", Json.obj [("x", Json.num 2)])]) = true ∧
    unwrapBg (Json.obj [("rows", Json.arr [Json.num 1]),
        ("payload", Json.obj [("x", Json.num 2)])]) = Json.obj [("x", Json.num 2)] ∧
    Json.obj [("x", Json.num 2)] ≠
      Json.obj [("rows", Json.arr [Json.num 1]), ("payload", Json.obj [("x", Json.num 2)])] := by
  refine ⟨rfl, rfl, fun h => ?_⟩
  exact absurd (congrArg printJson h) (by decide)

/-- C6 amended: `loadUnitData` accepts the top-level response whenever it has
a truthy `rows`, `flows` or `clientBunkers` field, otherwise takes a truthy
nested `data` field, otherwise keeps the top-level value; the background
reconciliation fetch instead prefers a truthy nested `payload` field, then a
truthy nested `data` field, and only otherwise accepts the top-level
object. -/
theorem C6_unwrap_amended :
    (∀ d, hasPayloadShape d = true → unwrapLoad d = d) ∧
    (∀ d p, getField d "payload" = some p → jsTruthy p = true → unwrapBg d = p) ∧
    (∀ d p, truthyOpt (getField d "payload") = false → getField d "data" = some p →
       jsTruthy p = true → unwrapBg d = p) ∧
    (∀ d, truthyOpt (getField d "payload") = false →
       truthyOpt (getField d "data") = false → unwrapBg d = d) ∧
    (∀ d p, hasPayloadShape d = false → jsTruthy d = true → getField d "data" = some p →
       jsTruthy p = true → unwrapLoad d = p) ∧
    (∀ d, hasPayloadShape d = false → truthyOpt (getField d "data") = false →
       unwrapLoad d = d) := by
  refine ⟨?_, ?_, ?_, ?_, ?_, ?_⟩
  · intro d h
    simp [unwrapLoad, h]
  · intro d p h hp
    simp [unwrapBg, firstTruthy, h, truthyOpt, hp]
  · intro d p h h2 hp
    have hft : firstTruthy [getField d "payload", getField d "data"] = some p := by
      unfold firstTruthy
      rw [if_neg (by simp [h])]
      unfold firstTruthy
      rw [h2, if_pos (by simp [truthyOpt, hp])]
    simp [unwrapBg, hft]
  · intro d h h2
    simp [unwrapBg, firstTruthy, h, h2]
  · intro d p h hd h2 hp
    simp [unwrapLoad, h, hd, h2, truthyOpt, hp]
  · intro d h h2
    simp [unwrapLoad, h, h2]

/-- Witness for the amended C6 at concrete responses. -/
theorem C6_amended_witness :
    hasPayloadShape (Json.obj [("rows", Json.arr [Json.num 1])]) = true ∧
    unwrapLoad (Json.obj [("rows", Json.arr [Json.num 1])]) =
      Json.obj [("rows", Json.arr [Json.num 1])] :=
  ⟨rfl, C6_unwrap_amended.1 (Json.obj [("rows", Json.arr [Json.num 1])]) rfl⟩

/-- C5 counterexample: the first fetch succeeds with a partial map (only unit
1 mapped), the init request throws, and `ensureServerUnitMapping` returns the
empty object — not the partial map the last successful fetch produced, as the
claim requires. -/
theorem C5_counterexample :
    (fetchServerUnitMap (some (Json.obj [("1", Json.str "a")])) initState).1 =
      Json.obj [("1", Json.str "a")] ∧
    (ensureServerUnitMapping
        { fetch1 := some (Json.obj [("1", Json.str "a")]),
          initResp := InitOutcome.threw, fetch2 := none } initState).1 = Json.obj [] ∧
    (Json.obj [] : Json) ≠ Json.obj [("1", Json.str "a")] := by
  refine ⟨rfl, rfl, fun h => ?_⟩
  exact absurd (congrArg printJson h) (by decide)

/-- C5 amended: `ensureServerUnitMapping` returns the fetched map unchanged
whenever it has truthy entries for all three units; otherwise it POSTs the
idempotent init operation and returns its `map` field (the empty object when
that field is missing or untruthy); on a non-ok init status it returns the
result of one more fetch; and on a thrown init failure (including a null init
body) it returns the empty object — never raising an exception to the
caller. -/
theorem C5_ensureMapping_amended (o : EnsureOracle) (st : EngineState) :
    (hasAllThreeUnits (fetchServerUnitMap o.fetch1 st).1 = true →
       ensureServerUnitMapping o st = fetchServerUnitMap o.fetch1 st) ∧
    (hasAllThreeUnits (fetchServerUnitMap o.fetch1 st).1 = false →
       ((o.initResp = InitOutcome.threw → (ensureServerUnitMapping o st).1 = Json.obj []) ∧
        (o.initResp = InitOutcome.notOk →
           (ensureServerUnitMapping o st).1 = (fetchServerUnitMap o.fetch2 st).1) ∧
        (o.initResp = InitOutcome.ok Json.null →
           (ensureServerUnitMapping o st).1 = Json.obj []) ∧
        (∀ data, o.initResp = InitOutcome.ok data → data ≠ Json.null →
           (ensureServerUnitMapping o st).1 =
             (match firstTruthy [getField data "map"] with
              | some m => m
              | none => Json.obj [])))) := by
  unfold ensureServerUnitMapping hasAllThreeUnits
  rcases hF : fetchServerUnitMap o.fetch1 st with ⟨map, st1⟩
  simp only
  constructor
  · intro h
    rw [if_pos h]
  · intro h
    rw [if_neg (by simp [h])]
    refine ⟨?_, ?_, ?_, ?_⟩
    · intro hinit
      rw [hinit]
    · intro hinit
      rw [hinit]
      simp only
      exact fetch_fst o.fetch2 _ st
    · intro hinit
      rw [hinit]
    · intro data hinit hnn
      rw [hinit]
      cases data with
      | null => exact absurd rfl hnn
      | bool b => rfl
      | num n => rfl
      | str s => rfl
      | arr xs => rfl
      | obj kvs => rfl

/-- Witness for the amended C5: a complete three-unit map is returned
unchanged. -/
theorem C5_amended_witness :
    hasAllThreeUnits (fetchServerUnitMap (some (Json.obj
      [("1", Json.str "a"), ("2", Json.str "b"), ("3", Json.str "c")])) initState).1 = true ∧
    ensureServerUnitMapping
        { fetch1 := some (Json.obj [("1", Json.str "a"), ("2", Json.str "b"), ("3", Json.str "c")]),
          initResp := InitOutcome.threw, fetch2 := none } initState =
      fetchServerUnitMap (some (Json.obj
        [("1", Json.str "a"), ("2", Json.str "b"), ("3", Json.str "c")])) initState :=
  ⟨rfl,
   (C5_ensureMapping_amended
      { fetch1 := some (Json.obj [("1", Json.str "a"), ("2", Json.str "b"), ("3", Json.str "c")]),
        initResp := InitOutcome.threw, fetch2 := none } initState).1 rfl⟩

/-- C4: `getBlendIdForUnit` resolves by preference order — (a) a truthy entry
of the process-wide server map, with no network call and no state change;
(b) otherwise, after exactly one refreshing fetch, the now-present truthy
entry; (c) otherwise a truthy entry of the locally persisted fallback map;
and it returns `none` exactly when all three sources lack a truthy entry. -/
theorem C4_resolveUnitId_preference (unit : Int) (resp : Option Json) (st : EngineState)
    (h1 : 1 ≤ unit) (h3 : unit ≤ 3) :
    (truthyOpt (getField st.serverUnitMap (toString unit)) = true →
       getBlendIdForUnit unit resp st = (getField st.serverUnitMap (toString unit), st)) ∧
    (truthyOpt (getField st.serverUnitMap (toString unit)) = false →
       ((getBlendIdForUnit unit resp st).2.netTrace = NetReq.getUnits :: st.netTrace ∧
        (truthyOpt (getField (fetchServerUnitMap resp st).2.serverUnitMap (toString unit)) = true →
           (getBlendIdForUnit unit resp st).1 =
             getField (fetchServerUnitMap resp st).2.serverUnitMap (toString unit)) ∧
        (truthyOpt (getField (fetchServerUnitMap resp st).2.serverUnitMap (toString unit)) = false →
           (getBlendIdForUnit unit resp st).1 =
             (if truthyOpt (getField (readBlendIds (fetchServerUnitMap resp st).2.lsBlendIds)
                  (toString unit)) then
                getField (readBlendIds (fetchServerUnitMap resp st).2.lsBlendIds) (toString unit)
              else none)))) ∧
    ((getBlendIdForUnit unit resp st).1 = none ↔
       (truthyOpt (getField st.serverUnitMap (toString unit)) = false ∧
        truthyOpt (getField (fetchServerUnitMap resp st).2.serverUnitMap (toString unit)) = false ∧
        truthyOpt (getField (readBlendIds (fetchServerUnitMap resp st).2.lsBlendIds)
          (toString unit)) = false)) := by
  have hu : effUnit unit st = unit := by
    unfold effUnit
    simp [show unit ≠ 0 by omega]
  have hu0 : ¬(effUnit unit st == 0) = true := by
    simp [hu]
    omega
  unfold getBlendIdForUnit
  rw [hu]
  rw [if_neg (by simpa [hu] using hu0)]
  by_cases hA : truthyOpt (getField st.serverUnitMap (toString unit)) = true
  · refine ⟨fun _ => by rw [if_pos hA], fun hA' => absurd hA (by simp [hA']), ?_⟩
    rw [if_pos hA]
    constructor
    · intro hnone
      exact absurd hnone (truthyOpt_ne_none hA)
    · rintro ⟨hA', _, _⟩
      exact absurd hA (by simp [hA'])
  · have hA' : truthyOpt (getField st.serverUnitMap (toString unit)) = false := by
      simpa using hA
    rw [if_neg hA]
    by_cases hB : truthyOpt (getField (fetchServerUnitMap resp st).2.serverUnitMap
        (toString unit)) = true
    · rw [if_pos hB]
      refine ⟨fun hAt => absurd hAt (by simp [hA']), ?_, ?_⟩
      · exact fun _ => ⟨fetch_netTrace resp st, fun _ => rfl,
          fun hB' => absurd hB (by simp [hB'])⟩
      · constructor
        · intro hnone
          exact absurd hnone (truthyOpt_ne_none hB)
        · rintro ⟨_, hB', _⟩
          exact absurd hB (by simp [hB'])
    · have hB' : truthyOpt (getField (fetchServerUnitMap resp st).2.serverUnitMap
          (toString unit)) = false := by simpa using hB
      rw [if_neg hB]
      by_cases hC : truthyOpt (getField (readBlendIds (fetchServerUnitMap resp st).2.lsBlendIds)
          (toString unit)) = true
      · rw [if_pos hC]
        refine ⟨fun hAt => absurd hAt (by simp [hA']), ?_, ?_⟩
        · exact fun _ => ⟨fetch_netTrace resp st, fun hBt => absurd hBt (by simp [hB']),
            fun _ => by rw [if_pos hC]⟩
        · constructor
          · intro hnone
            exact absurd hnone (truthyOpt_ne_none hC)
          · rintro ⟨_, _, hC'⟩
            exact absurd hC (by simp [hC'])
      · have hC' : truthyOpt (getField (readBlendIds (fetchServerUnitMap resp st).2.lsBlendIds)
            (toString unit)) = false := by simpa using hC
        rw [if_neg hC]
        refine ⟨fun hAt => absurd hAt (by simp [hA']), ?_, ?_⟩
        · exact fun _ => ⟨fetch_netTrace resp st, fun hBt => absurd hBt (by simp [hB']),
            fun _ => by rw [if_neg hC]⟩
        · exact ⟨fun _ => ⟨hA', hB', hC'⟩, fun _ => rfl⟩

/-- C8: for a background reconciliation fetch that resolved an id and got a
non-null body — when the serialized fetched payload differs from the
serialized cached entry, the memory tier is overwritten, the UI repopulated
and a durable persist scheduled; when the serializations agree, the memory
tier, the UI and the form are left untouched. -/
theorem C8_background_reconciliation (u : Int) (o : BgOracle) (now : Nat) (st : EngineState)
    (idj data : Json)
    (hid : (getBlendIdForUnit u o.unitsFetch st).1 = some idj)
    (hresp : o.blendResp = some data) (hnn : data ≠ Json.null) :
    (printJson (jsOr ((lookupAssoc st.memCache u).getD Json.null) (Json.obj [])) ≠
        printJson (jsOr (unwrapBg data) (Json.obj [])) →
      (lookupAssoc (backgroundFetch u o now st).memCache u = some (unwrapBg data) ∧
       (jsTruthy (unwrapBg data) = true →
         (backgroundFetch u o now st).uiTrace =
           UIEvent.populated (unwrapBg data) :: st.uiTrace) ∧
       (backgroundFetch u o now st).persistDue.isSome = true)) ∧
    (printJson (jsOr ((lookupAssoc st.memCache u).getD Json.null) (Json.obj [])) =
        printJson (jsOr (unwrapBg data) (Json.obj [])) →
      ((backgroundFetch u o now st).memCache = st.memCache ∧
       (backgroundFetch u o now st).uiTrace = st.uiTrace ∧
       (backgroundFetch u o now st).form = st.form ∧
       (backgroundFetch u o now st).persistDue = st.persistDue)) := by
  have hmem := getBlendId_memCache u o.unitsFetch st
  have hui := getBlendId_uiTrace u o.unitsFetch st
  have hform := getBlendId_form u o.unitsFetch st
  have hdue := getBlendId_persistDue u o.unitsFetch st
  unfold backgroundFetch
  rcases hg : getBlendIdForUnit u o.unitsFetch st with ⟨iopt, st1⟩
  rw [hg] at hid hmem hui hform hdue
  simp only at hid hmem hui hform hdue
  subst hid
  rw [hresp]
  simp only
  cases data with
  | null => exact absurd rfl hnn
  | bool b =>
      constructor
      · intro hdiff
        rw [if_pos (by simpa [hmem] using hdiff)]
        refine ⟨?_, ?_, sched_persistDue_isSome _ _⟩
        · rw [sched_memCache, populate_memCache]
          exact lookupAssoc_setAssoc_self _ _ _
        · intro htr
          rw [sched_uiTrace, populate_uiTrace_of_truthy _ _ htr]
          simp [hui]
      · intro heq
        rw [if_neg (by simpa [hmem] using not_ne_iff.mpr heq)]
        exact ⟨hmem, hui, hform, hdue⟩
  | num n =>
      constructor
      · intro hdiff
        rw [if_pos (by simpa [hmem] using hdiff)]
        refine ⟨?_, ?_, sched_persistDue_isSome _ _⟩
        · rw [sched_memCache, populate_memCache]
          exact lookupAssoc_setAssoc_self _ _ _
        · intro htr
          rw [sched_uiTrace, populate_uiTrace_of_truthy _ _ htr]
          simp [hui]
      · intro heq
        rw [if_neg (by simpa [hmem] using not_ne_iff.mpr heq)]
        exact ⟨hmem, hui, hform, hdue⟩
  | str s =>
      constructor
      · intro hdiff
        rw [if_pos (by simpa [hmem] using hdiff)]
        refine ⟨?_, ?_, sched_persistDue_isSome _ _⟩
        · rw [sched_memCache, populate_memCache]
          exact lookupAssoc_setAssoc_self _ _ _
        · intro htr
          rw [sched_uiTrace, populate_uiTrace_of_truthy _ _ htr]
          simp [hui]
      · intro heq
        rw [if_neg (by simpa [hmem] using not_ne_iff.mpr heq)]
        exact ⟨hmem, hui, hform, hdue⟩
  | arr xs =>
      constructor
      · intro hdiff
        rw [if_pos (by simpa [hmem] using hdiff)]
        refine ⟨?_, ?_, sched_persistDue_isSome _ _⟩
        · rw [sched_memCache, populate_memCache]
          exact lookupAssoc_setAssoc_self _ _ _
        · intro htr
          rw [sched_uiTrace, populate_uiTrace_of_truthy _ _ htr]
          simp [hui]
      · intro heq
        rw [if_neg (by simpa [hmem] using not_ne_iff.mpr heq)]
        exact ⟨hmem, hui, hform, hdue⟩
  | obj kvs =>
      constructor
      · intro hdiff
        rw [if_pos (by simpa [hmem] using hdiff)]
        refine ⟨?_, ?_, sched_persistDue_isSome _ _⟩
        · rw [sched_memCache, populate_memCache]
          exact lookupAssoc_setAssoc_self _ _ _
        · intro htr
          rw [sched_uiTrace, populate_uiTrace_of_truthy _ _ htr]
          simp [hui]
      · intro heq
        rw [if_neg (by simpa [hmem] using not_ne_iff.mpr heq)]
        exact ⟨hmem, hui, hform, hdue⟩

/-- Witness for C8: a differing fetched payload lands in the memory tier. -/
theorem C8_witness :
    ((getBlendIdForUnit 1 none
        { initState with serverUnitMap := Json.obj [("1", Json.str "id1")] }).1 =
      some (Json.str "id1")) ∧
    (printJson (jsOr ((lookupAssoc
        ({ initState with serverUnitMap := Json.obj [("1", Json.str "id1")] } :
          EngineState).memCache 1).getD Json.null) (Json.obj [])) ≠
      printJson (jsOr (unwrapBg (Json.obj [("rows", Json.arr [Json.num 5])])) (Json.obj []))) ∧
    lookupAssoc (backgroundFetch 1
        { unitsFetch := none, blendResp := some (Json.obj [("rows", Json.arr [Json.num 5])]) } 0
        { initState with serverUnitMap := Json.obj [("1", Json.str "id1")] }).memCache 1 =
      some (unwrapBg (Json.obj [("rows", Json.arr [Json.num 5])])) :=
  ⟨rfl, by decide,
   ((C8_background_reconciliation 1
       { unitsFetch := none, blendResp := some (Json.obj [("rows", Json.arr [Json.num 5])]) } 0
       { initState with serverUnitMap := Json.obj [("1", Json.str "id1")] }
       (Json.str "id1") (Json.obj [("rows", Json.arr [Json.num 5])])
       rfl rfl (fun h => Json.noConfusion h)).1 (by decide)).1⟩

/-- The clamp is the identity on units 1..3. -/
theorem clampUnit_id (u : Int) (h1 : 1 ≤ u) (h3 : u ≤ 3) : clampUnit u = u := by
  unfold clampUnit
  have h0 : (u == 0) = false := by simp; omega
  rw [h0]
  simp only [Bool.false_eq_true, if_false]
  rw [if_neg (by omega), if_neg (by omega)]

/-- The active-unit resolution when `window.currentUnit` is already set. -/
theorem stUnitNumber_of_pos (st : EngineState) (h : st.currentUnit ≠ 0) :
    stUnitNumber st = st.currentUnit := by
  unfold stUnitNumber
  simp [h]

/-- A unit switch never issues a network request synchronously. -/
theorem switchSync_netTrace (u : Int) (now : Nat) (st : EngineState) :
    (setCurrentUnitFastSync u now st).netTrace = st.netTrace := by
  simp only [setCurrentUnitFastSync]
  repeat' split
  all_goals simp [populate_netTrace, clear_netTrace, saveTransient_netTrace]

/-- A unit switch never writes the durable payload-cache key synchronously. -/
theorem switchSync_cacheWriteLog (u : Int) (now : Nat) (st : EngineState) :
    (setCurrentUnitFastSync u now st).cacheWriteLog = st.cacheWriteLog := by
  simp only [setCurrentUnitFastSync]
  repeat' split
  all_goals simp [populate_cacheWriteLog, clear_cacheWriteLog, saveTransient_cacheWriteLog]

/-- After a switch the clamped target unit is active. -/
theorem switchSync_currentUnit (u : Int) (now : Nat) (st : EngineState) :
    (setCurrentUnitFastSync u now st).currentUnit = clampUnit u := by
  simp only [setCurrentUnitFastSync]
  repeat' split
  all_goals simp [populate_currentUnit, clear_currentUnit]

/-- Memory-tier content after a switch, away from the clamped target key: the
switch only adds the flush-current snapshot for the previously active unit
(and possibly seeds the target's entry from durable storage). -/
theorem switchSync_memCache_ne (u : Int) (now : Nat) (st : EngineState) (k : Int)
    (hk : clampUnit u ≠ k) :
    lookupAssoc (setCurrentUnitFastSync u now st).memCache k =
      lookupAssoc (setAssoc st.memCache (stUnitNumber st)
        (collectFormData st.form st.lsCoalColorMap now)) k := by
  simp only [setCurrentUnitFastSync]
  repeat' split
  all_goals simp [populate_memCache, clear_memCache, saveTransient_memCache,
    lookupAssoc_setAssoc_ne _ _ _ _ hk]

/-- When the memory tier holds a truthy entry for the clamped target, the
switch renders it: it is exactly flush-current followed by select followed by
a populate of that entry. -/
theorem switchSync_hit (u : Int) (now : Nat) (st : EngineState) (p : Json)
    (hmem : lookupAssoc (setAssoc st.memCache (stUnitNumber st)
        (collectFormData st.form st.lsCoalColorMap now)) (clampUnit u) = some p)
    (hp : jsTruthy p = true) :
    setCurrentUnitFastSync u now st =
      populateFormFromPayload p
        { (saveTransientToMemory now st) with
          currentUnit := clampUnit u,
          lsCurrentUnit := some (toString (clampUnit u)) } := by
  simp only [setCurrentUnitFastSync]
  have hmem' : lookupAssoc (saveTransientToMemory now st).memCache (clampUnit u) = some p := by
    rw [saveTransient_memCache]
    exact hmem
  rw [show ({ (saveTransientToMemory now st) with
      currentUnit := clampUnit u,
      lsCurrentUnit := some (toString (clampUnit u)) } : EngineState).memCache =
    (saveTransientToMemory now st).memCache from rfl] at *
  rw [hmem']
  simp [truthyOpt, hp]

/-- C1: switching from active unit `v` to a different unit `u` (both in 1..3)
and immediately back re-renders the form from the memory-tier entry for `v`
snapshotted at the first switch — the exact captured payload, with the memory
tier still holding it and no network request issued anywhere in the round
trip. -/
theorem C1_switch_roundtrip (st : EngineState) (u v : Int) (now1 now2 : Nat)
    (hv : st.currentUnit = v) (hv1 : 1 ≤ v) (hv3 : v ≤ 3)
    (hu1 : 1 ≤ u) (hu3 : u ≤ 3) (huv : u ≠ v) :
    lookupAssoc (setCurrentUnitFastSync v now2 (setCurrentUnitFastSync u now1 st)).memCache v =
      some (collectFormData st.form st.lsCoalColorMap now1) ∧
    (setCurrentUnitFastSync v now2 (setCurrentUnitFastSync u now1 st)).uiTrace.head? =
      some (UIEvent.populated (collectFormData st.form st.lsCoalColorMap now1)) ∧
    (setCurrentUnitFastSync v now2 (setCurrentUnitFastSync u now1 st)).form =
      formOfPayload (collectFormData st.form st.lsCoalColorMap now1) ∧
    (setCurrentUnitFastSync v now2 (setCurrentUnitFastSync u now1 st)).netTrace = st.netTrace := by
  have hclu : clampUnit u = u := clampUnit_id u hu1 hu3
  have hclv : clampUnit v = v := clampUnit_id v hv1 hv3
  have hstu : stUnitNumber st = v := by
    rw [stUnitNumber_of_pos st (by omega), hv]
  -- the first switch snapshots v's form into the memory tier
  have hmem1 : lookupAssoc (setCurrentUnitFastSync u now1 st).memCache v =
      some (collectFormData st.form st.lsCoalColorMap now1) := by
    rw [switchSync_memCache_ne u now1 st v (by rw [hclu]; exact huv), hstu]
    exact lookupAssoc_setAssoc_self _ _ _
  have hcur1 : (setCurrentUnitFastSync u now1 st).currentUnit = u := by
    rw [switchSync_currentUnit, hclu]
  have hstu1 : stUnitNumber (setCurrentUnitFastSync u now1 st) = u := by
    rw [stUnitNumber_of_pos _ (by rw [hcur1]; omega), hcur1]
  -- the second switch finds the snapshot and renders it
  have hhit := switchSync_hit v now2 (setCurrentUnitFastSync u now1 st)
    (collectFormData st.form st.lsCoalColorMap now1)
    (by
      rw [hclv, hstu1, lookupAssoc_setAssoc_ne _ _ _ _ huv]
      exact hmem1)
    (jsTruthy_collectFormData _ _ _)
  rw [hhit]
  refine ⟨?_, ?_, ?_, ?_⟩
  · rw [populate_memCache]
    show lookupAssoc (saveTransientToMemory now2 (setCurrentUnitFastSync u now1 st)).memCache v =
      _
    rw [saveTransient_memCache, hstu1, lookupAssoc_setAssoc_ne _ _ _ _ huv]
    exact hmem1
  · rw [populate_uiTrace_of_truthy _ _ (jsTruthy_collectFormData _ _ _)]
    rfl
  · exact populate_form_of_truthy _ _ (jsTruthy_collectFormData _ _ _)
  · rw [populate_netTrace]
    show (saveTransientToMemory now2 (setCurrentUnitFastSync u now1 st)).netTrace = st.netTrace
    rw [saveTransient_netTrace, switchSync_netTrace]

/-- Witness for C1: a concrete round trip 2 → 1 → 2 restores the captured
payload. -/
theorem C1_witness :
    (({ initState with currentUnit := 2 } : EngineState).currentUnit = 2 ∧
      (1 : Int) ≠ 2) ∧
    lookupAssoc (setCurrentUnitFastSync 2 400
        (setCurrentUnitFastSync 1 100 { initState with currentUnit := 2 })).memCache 2 =
      some (collectFormData initForm none 100) :=
  ⟨⟨rfl, by norm_num⟩,
   (C1_switch_roundtrip { initState with currentUnit := 2 } 1 2 100 400
      rfl (by norm_num) (by norm_num) (by norm_num) (by norm_num) (by norm_num)).1⟩

/-- Rendering a payload does not change the active-unit resolution. -/
theorem effUnit_populate (u : Int) (p : Json) (st : EngineState) :
    effUnit u (populateFormFromPayload p st) = effUnit u st := by
  unfold effUnit
  rw [populate_currentUnit]

/-- The post-fetch server map does not depend on a preceding render. -/
theorem fetch2_serverUnitMap_populate (r : Option Json) (p : Json) (st : EngineState) :
    (fetchServerUnitMap r (populateFormFromPayload p st)).2.serverUnitMap =
      (fetchServerUnitMap r st).2.serverUnitMap := by
  unfold fetchServerUnitMap
  cases r with
  | none =>
      dsimp only
      exact populate_serverUnitMap p st
  | some m => rfl

/-- The post-fetch persisted fallback map does not depend on a preceding
render. -/
theorem fetch2_lsBlendIds_populate (r : Option Json) (p : Json) (st : EngineState) :
    (fetchServerUnitMap r (populateFormFromPayload p st)).2.lsBlendIds =
      (fetchServerUnitMap r st).2.lsBlendIds := by
  unfold fetchServerUnitMap
  cases r with
  | none =>
      dsimp only
      exact populate_lsBlendIds p st
  | some m => rfl

/-- Id resolution returns the same id whether or not a render happened
first (it reads none of the fields a render touches). -/
theorem getBlendId_fst_populate (u : Int) (r : Option Json) (p : Json) (st : EngineState) :
    (getBlendIdForUnit u r (populateFormFromPayload p st)).1 =
      (getBlendIdForUnit u r st).1 := by
  unfold getBlendIdForUnit
  rw [effUnit_populate, populate_serverUnitMap, fetch2_serverUnitMap_populate,
      fetch2_lsBlendIds_populate]
  repeat' split
  all_goals rfl

/-- The background reconciliation task never writes the durable
payload-cache key: its write log is untouched. -/
theorem bg_cacheWriteLog (u : Int) (o : BgOracle) (now : Nat) (st : EngineState) :
    (backgroundFetch u o now st).cacheWriteLog = st.cacheWriteLog := by
  unfold backgroundFetch
  rcases hg : getBlendIdForUnit u o.unitsFetch st with ⟨iopt, st1⟩
  have h1 : st1.cacheWriteLog = st.cacheWriteLog := by
    have h := getBlendId_cacheWriteLog u o.unitsFetch st
    rw [hg] at h
    exact h
  cases iopt with
  | none => exact h1
  | some idj =>
      dsimp only
      cases o.blendResp with
      | none => exact h1
      | some data =>
          cases data with
          | null => exact h1
          | bool b =>
              dsimp only
              split <;> simp [sched_cacheWriteLog, populate_cacheWriteLog, h1]
          | num n =>
              dsimp only
              split <;> simp [sched_cacheWriteLog, populate_cacheWriteLog, h1]
          | str s2 =>
              dsimp only
              split <;> simp [sched_cacheWriteLog, populate_cacheWriteLog, h1]
          | arr xs =>
              dsimp only
              split <;> simp [sched_cacheWriteLog, populate_cacheWriteLog, h1]
          | obj kvs =>
              dsimp only
              split <;> simp [sched_cacheWriteLog, populate_cacheWriteLog, h1]

/-- The background reconciliation task never writes the durable
payload-cache key: the stored string is untouched. -/
theorem bg_lsPayloadCache (u : Int) (o : BgOracle) (now : Nat) (st : EngineState) :
    (backgroundFetch u o now st).lsPayloadCache = st.lsPayloadCache := by
  unfold backgroundFetch
  rcases hg : getBlendIdForUnit u o.unitsFetch st with ⟨iopt, st1⟩
  have h1 : st1.lsPayloadCache = st.lsPayloadCache := by
    have h := getBlendId_lsPayloadCache u o.unitsFetch st
    rw [hg] at h
    exact h
  cases iopt with
  | none => exact h1
  | some idj =>
      dsimp only
      cases o.blendResp with
      | none => exact h1
      | some data =>
          cases data with
          | null => exact h1
          | bool b =>
              dsimp only
              split <;> simp [sched_lsPayloadCache, populate_lsPayloadCache, h1]
          | num n =>
              dsimp only
              split <;> simp [sched_lsPayloadCache, populate_lsPayloadCache, h1]
          | str s2 =>
              dsimp only
              split <;> simp [sched_lsPayloadCache, populate_lsPayloadCache, h1]
          | arr xs =>
              dsimp only
              split <;> simp [sched_lsPayloadCache, populate_lsPayloadCache, h1]
          | obj kvs =>
              dsimp only
              split <;> simp [sched_lsPayloadCache, populate_lsPayloadCache, h1]

/-- On a successful fetch (id resolved, response received), `loadUnitData`
writes the durable payload-cache key directly: exactly one immediate write,
not routed through `schedulePersistPayloadCache`. -/
theorem loadUnitData_direct_write (unit : Int) (o : LoadOracle) (st : EngineState)
    (idj data : Json)
    (hid : (getBlendIdForUnit (effUnit unit st) o.unitsFetch st).1 = some idj)
    (hresp : o.blendResp = some data) :
    (loadUnitData unit o st).2.cacheWriteLog =
      { via := WriteVia.direct,
        content := printJson (setField (readPayloadCache st.lsPayloadCache)
          (toString (effUnit unit st)) (unwrapLoad data)) } :: st.cacheWriteLog := by
  unfold loadUnitData
  dsimp only
  by_cases hc : truthyOpt (getField (readPayloadCache st.lsPayloadCache)
      (toString (effUnit unit st))) = true
  · rw [if_pos hc]
    rcases hg : getBlendIdForUnit (effUnit unit st) o.unitsFetch
        (populateFormFromPayload ((getField (readPayloadCache st.lsPayloadCache)
          (toString (effUnit unit st))).getD Json.null) st) with ⟨iopt, st2⟩
    have hfst : iopt = some idj := by
      have h := getBlendId_fst_populate (effUnit unit st) o.unitsFetch
        ((getField (readPayloadCache st.lsPayloadCache)
          (toString (effUnit unit st))).getD Json.null) st
      rw [hg, hid] at h
      exact h
    have hls : st2.lsPayloadCache = st.lsPayloadCache := by
      have h := getBlendId_lsPayloadCache (effUnit unit st) o.unitsFetch
        (populateFormFromPayload ((getField (readPayloadCache st.lsPayloadCache)
          (toString (effUnit unit st))).getD Json.null) st)
      rw [hg] at h
      rw [h, populate_lsPayloadCache]
    have hlog : st2.cacheWriteLog = st.cacheWriteLog := by
      have h := getBlendId_cacheWriteLog (effUnit unit st) o.unitsFetch
        (populateFormFromPayload ((getField (readPayloadCache st.lsPayloadCache)
          (toString (effUnit unit st))).getD Json.null) st)
      rw [hg] at h
      rw [h, populate_cacheWriteLog]
    subst hfst
    rw [hresp]
    dsimp only [writePayloadCache]
    rw [populate_lsPayloadCache, populate_cacheWriteLog]
    dsimp only
    rw [hls, hlog]
  · rw [if_neg hc]
    rcases hg : getBlendIdForUnit (effUnit unit st) o.unitsFetch st with ⟨iopt, st2⟩
    have hfst : iopt = some idj := by
      have h : (getBlendIdForUnit (effUnit unit st) o.unitsFetch st).1 = iopt := by
        rw [hg]
      rw [hid] at h
      exact h.symm
    have hls : st2.lsPayloadCache = st.lsPayloadCache := by
      have h := getBlendId_lsPayloadCache (effUnit unit st) o.unitsFetch st
      rw [hg] at h
      exact h
    have hlog : st2.cacheWriteLog = st.cacheWriteLog := by
      have h := getBlendId_cacheWriteLog (effUnit unit st) o.unitsFetch st
      rw [hg] at h
      exact h
    subst hfst
    rw [hresp]
    dsimp only [writePayloadCache]
    rw [populate_lsPayloadCache, populate_cacheWriteLog]
    dsimp only
    rw [hls, hlog]

/-- C3 counterexample: one concrete `saveToServer` run (an id already
resolved, the save succeeding) writes the durable payload-cache key directly
— its write log holds a write that did not go through
`schedulePersistPayloadCache`, and no deferred flush is even pending
afterwards. -/
theorem C3_counterexample :
    ((saveToServer
        { unitsFetch1 := none, saveResp := some (Json.obj [("id", Json.str "id1")]),
          unitsPutThrew := false, unitsFetch2 := none } 7
        { initState with serverUnitMap := Json.obj [("1", Json.str "id1")] }).cacheWriteLog.all
      (fun w => w.via == WriteVia.scheduled)) = false ∧
    (saveToServer
        { unitsFetch1 := none, saveResp := some (Json.obj [("id", Json.str "id1")]),
          unitsPutThrew := false, unitsFetch2 := none } 7
        { initState with serverUnitMap := Json.obj [("1", Json.str "id1")] }).persistDue = none := by
  exact ⟨rfl, rfl⟩

/-- Timer-pending scheduling calls are no-ops while the flush is not yet due. -/
theorem foldl_schedStep_pending (ts : List Nat) (st : EngineState) (due : Nat)
    (hdue : st.persistDue = some due) (hts : ∀ t ∈ ts, t < due) :
    ts.foldl schedStep st = st := by
  induction ts with
  | nil => rfl
  | cons t ts ih =>
      simp only [List.foldl_cons]
      have hstep : schedStep st t = st := by
        unfold schedStep
        rw [hdue]
        dsimp only
        rw [if_neg (by have := hts t (by simp); omega)]
        simp [schedulePersistPayloadCache, hdue]
      rw [hstep]
      exact ih (fun t' ht' => hts t' (by simp [ht']))

/-- C3 amended: the autosave path never writes the durable payload-cache key
directly — `saveTransientToMemory` leaves the key and its write log untouched
and only arms the deferred flush — and all `schedulePersistPayloadCache`
calls arriving within one 300ms batching window coalesce into a single
scheduled serialize-and-write of the entire current memory tier; however
`saveToServer` and `loadUnitData` each write the key directly (see the
counterexample). -/
theorem C3_persist_amended :
    (∀ (now : Nat) (st : EngineState),
       (saveTransientToMemory now st).cacheWriteLog = st.cacheWriteLog ∧
       (saveTransientToMemory now st).lsPayloadCache = st.lsPayloadCache ∧
       (saveTransientToMemory now st).persistDue.isSome = true) ∧
    (∀ (t0 : Nat) (ts : List Nat) (st : EngineState),
       st.persistDue = none →
       (∀ t ∈ ts, t0 ≤ t ∧ t < t0 + 300) →
       runSched (t0 :: ts) st =
         writePayloadCache WriteVia.scheduled (memCacheToJson st.memCache)
           { st with persistDue := none }) ∧
    (∀ (u : Int) (oB : BgOracle) (now : Nat) (st : EngineState),
       (backgroundFetch u oB now st).cacheWriteLog = st.cacheWriteLog ∧
       (backgroundFetch u oB now st).lsPayloadCache = st.lsPayloadCache) ∧
    (∀ (unit : Int) (oL : LoadOracle) (st : EngineState) (idj data : Json),
       (getBlendIdForUnit (effUnit unit st) oL.unitsFetch st).1 = some idj →
       oL.blendResp = some data →
       (loadUnitData unit oL st).2.cacheWriteLog =
         { via := WriteVia.direct,
           content := printJson (setField (readPayloadCache st.lsPayloadCache)
             (toString (effUnit unit st)) (unwrapLoad data)) } :: st.cacheWriteLog) := by
  refine ⟨?_, ?_, ?_, ?_⟩
  · intro now st
    exact ⟨saveTransient_cacheWriteLog now st, saveTransient_lsPayloadCache now st,
      by unfold saveTransientToMemory; exact sched_persistDue_isSome _ _⟩
  · intro t0 ts st hnone hts
    unfold runSched
    simp only [List.foldl_cons]
    have hstep : schedStep st t0 = { st with persistDue := some (t0 + 300) } := by
      unfold schedStep
      rw [hnone]
      dsimp only
      simp [schedulePersistPayloadCache, hnone]
    rw [hstep]
    rw [foldl_schedStep_pending ts _ (t0 + 300) rfl (fun t ht => (hts t ht).2)]
    rfl
  · intro u oB now st
    exact ⟨bg_cacheWriteLog u oB now st, bg_lsPayloadCache u oB now st⟩
  · intro unit oL st idj data hid hresp
    exact loadUnitData_direct_write unit oL st idj data hid hresp

/-- Witness for the amended C3: three calls inside one 300ms window produce
exactly one scheduled write of the serialized memory tier; the autosave and
background-reconciliation paths leave the write log untouched; and a
concrete successful `loadUnitData` run performs the direct write. -/
theorem C3_amended_witness :
    ((initState.persistDue = none ∧ ∀ t ∈ [20, 200], 10 ≤ t ∧ t < 10 + 300) ∧
      runSched [10, 20, 200] initState =
        writePayloadCache WriteVia.scheduled (memCacheToJson initState.memCache)
          { initState with persistDue := none }) ∧
    (saveTransientToMemory 5 initState).cacheWriteLog = initState.cacheWriteLog ∧
    (backgroundFetch 1 { unitsFetch := none, blendResp := none } 0
        initState).cacheWriteLog = initState.cacheWriteLog ∧
    ((getBlendIdForUnit
        (effUnit 1 { initState with serverUnitMap := Json.obj [("1", Json.str "id1")] })
        none { initState with serverUnitMap := Json.obj [("1", Json.str "id1")] }).1 =
          some (Json.str "id1") ∧
      (loadUnitData 1
          { unitsFetch := none, blendResp := some (Json.obj [("rows", Json.arr [])]) }
          { initState with serverUnitMap := Json.obj [("1", Json.str "id1")] }).2.cacheWriteLog =
        { via := WriteVia.direct,
          content := printJson (setField (readPayloadCache
            ({ initState with serverUnitMap := Json.obj [("1", Json.str "id1")] } :
              EngineState).lsPayloadCache)
            (toString (effUnit 1
              { initState with serverUnitMap := Json.obj [("1", Json.str "id1")] }))
            (unwrapLoad (Json.obj [("rows", Json.arr [])]))) } ::
          ({ initState with serverUnitMap := Json.obj [("1", Json.str "id1")] } :
            EngineState).cacheWriteLog) :=
  ⟨⟨⟨rfl, by decide⟩,
    C3_persist_amended.2.1 10 [20, 200] initState rfl (by decide)⟩,
   (C3_persist_amended.1 5 initState).1,
   (C3_persist_amended.2.2.1 1 { unitsFetch := none, blendResp := none } 0 initState).1,
   rfl,
   C3_persist_amended.2.2.2 1
     { unitsFetch := none, blendResp := some (Json.obj [("rows", Json.arr [])]) }
     { initState with serverUnitMap := Json.obj [("1", Json.str "id1")] }
     (Json.str "id1") (Json.obj [("rows", Json.arr [])]) rfl rfl⟩

/-- Timer model for debounced edits: events strictly inside the window opened
by the first event keep superseding the pending capture. -/
theorem debounce_foldl_within (es : List (Nat × FormState)) (d : DebounceState)
    (t1 due : Nat) (hdue : d.timer = some due) (hge : t1 + 180 ≤ due)
    (hes : ∀ e ∈ es, t1 ≤ e.1 ∧ e.1 < t1 + 180) :
    es.foldl (fun d e => debEvent d e.1 e.2) d =
      (match es.getLast? with
       | none => d
       | some e => { d with timer := some (e.1 + 180), st := { d.st with form := e.2 } }) := by
  induction es generalizing d due with
  | nil => rfl
  | cons e es ih =>
      simp only [List.foldl_cons]
      have he := hes e (by simp)
      have hstep : debEvent d e.1 e.2 =
          { d with timer := some (e.1 + 180), st := { d.st with form := e.2 } } := by
        unfold debEvent
        rw [hdue]
        dsimp only
        rw [if_neg (by omega)]
      rw [hstep]
      rw [ih _ (e.1 + 180) rfl (by omega) (fun e' he' => hes e' (by simp [he']))]
      cases es with
      | nil => rfl
      | cons e2 es2 =>
          rw [List.getLast?_cons_cons]
          cases hgl : (e2 :: es2).getLast? with
          | none => simp at hgl
          | some eL => rfl

/-- C9: any number of edit events that all fall within one 180ms debounce
window (opened by the first event) produce exactly one memory-tier capture;
the captured payload snapshots the form as left by the last event (taken when
the final timer fires, 180ms after it), and it lands in the memory tier under
the active unit. -/
theorem C9_debounce (st0 : EngineState) (t1 : Nat) (f1 : FormState)
    (rest : List (Nat × FormState)) (lastE : Nat × FormState)
    (hwin : ∀ e ∈ rest, t1 ≤ e.1 ∧ e.1 < t1 + 180)
    (hlast : ((t1, f1) :: rest).getLast (List.cons_ne_nil _ _) = lastE) :
    (runDebounce ((t1, f1) :: rest) ⟨none, st0, []⟩).captures =
      [collectFormData lastE.2 st0.lsCoalColorMap (lastE.1 + 180)] ∧
    lookupAssoc (runDebounce ((t1, f1) :: rest) ⟨none, st0, []⟩).st.memCache
        (stUnitNumber st0) =
      some (collectFormData lastE.2 st0.lsCoalColorMap (lastE.1 + 180)) := by
  unfold runDebounce
  simp only [List.foldl_cons]
  have hd1 : debEvent ⟨none, st0, []⟩ t1 f1 =
      ⟨some (t1 + 180), { st0 with form := f1 }, []⟩ := rfl
  rw [hd1]
  rw [debounce_foldl_within rest _ t1 (t1 + 180) rfl (le_refl _) hwin]
  cases rest with
  | nil =>
      have hlast' : lastE = (t1, f1) := by
        simpa using hlast.symm
      subst hlast'
      simp only [List.getLast?_nil]
      constructor
      · rfl
      · show lookupAssoc (saveTransientToMemory (t1 + 180)
            { st0 with form := f1 }).memCache (stUnitNumber st0) = _
        rw [saveTransient_memCache]
        exact lookupAssoc_setAssoc_self _ _ _
  | cons r rs =>
      have hne : (r :: rs) ≠ [] := List.cons_ne_nil _ _
      have hgl : (r :: rs).getLast? = some ((r :: rs).getLast hne) :=
        List.getLast?_eq_getLast _ hne
      rw [hgl]
      have hlast' : (r :: rs).getLast hne = lastE := by
        rw [← hlast]
        exact (List.getLast_cons hne).symm
      rw [hlast']
      constructor
      · rfl
      · show lookupAssoc (saveTransientToMemory (lastE.1 + 180)
            { st0 with form := lastE.2 }).memCache (stUnitNumber st0) = _
        rw [saveTransient_memCache]
        exact lookupAssoc_setAssoc_self _ _ _

/-- Witness for C9: two edits at t=10 and t=50 yield exactly one capture, of
the second edit's form, at t=230. -/
theorem C9_witness :
    ((∀ e ∈ [((50 : Nat), ({ initForm with generation := Json.num 5 } : FormState))],
        10 ≤ e.1 ∧ e.1 < 10 + 180) ∧
      [((10 : Nat), initForm),
       ((50 : Nat), ({ initForm with generation := Json.num 5 } : FormState))].getLast
        (List.cons_ne_nil _ _) = (50, { initForm with generation := Json.num 5 })) ∧
    (runDebounce [((10 : Nat), initForm),
        ((50 : Nat), ({ initForm with generation := Json.num 5 } : FormState))]
        ⟨none, initState, []⟩).captures =
      [collectFormData { initForm with generation := Json.num 5 } none (50 + 180)] :=
  ⟨⟨by simp, rfl⟩,
   (C9_debounce initState 10 initForm
      [((50 : Nat), ({ initForm with generation := Json.num 5 } : FormState))]
      (50, { initForm with generation := Json.num 5 })
      (by simp) rfl).1⟩

/-- A corrupt (non-parseable) stored string reads back as the empty cache. -/
theorem readPayloadCache_corrupt (s : String) (h : parseJson s = none) :
    readPayloadCache (some s) = Json.obj [] := by
  unfold readPayloadCache lsOrEmptyObj
  by_cases hs : s = ""
  · subst hs
    rfl
  · dsimp only
    rw [if_neg hs, h]
    rfl

/-- An absent stored string reads back as the empty cache. -/
theorem readPayloadCache_absent : readPayloadCache none = Json.obj [] := rfl

/-- Clearing the form commutes with overriding the stored payload-cache
string. -/
theorem clear_ls_commute (x : Option String) (st : EngineState) :
    clearFormForUnitUI { st with lsPayloadCache := x } =
      { clearFormForUnitUI st with lsPayloadCache := x } := rfl

/-- Rendering a payload commutes with overriding the stored payload-cache
string (populate never touches that key). -/
theorem populate_ls_commute (p : Json) (x : Option String) (st : EngineState) :
    populateFormFromPayload p { st with lsPayloadCache := x } =
      { populateFormFromPayload p st with lsPayloadCache := x } := by
  unfold populateFormFromPayload clearFormForUnitUI
  split <;> rfl

/-- The unit-map fetch commutes with overriding the stored payload-cache
string. -/
theorem fetch_ls_commute (r : Option Json) (x : Option String) (st : EngineState) :
    fetchServerUnitMap r { st with lsPayloadCache := x } =
      ((fetchServerUnitMap r st).1,
       { (fetchServerUnitMap r st).2 with lsPayloadCache := x }) := by
  unfold fetchServerUnitMap
  cases r <;> rfl

/-- Id resolution commutes with overriding the stored payload-cache string. -/
theorem getBlendId_ls_commute (u : Int) (r : Option Json) (x : Option String)
    (st : EngineState) :
    getBlendIdForUnit u r { st with lsPayloadCache := x } =
      ((getBlendIdForUnit u r st).1,
       { (getBlendIdForUnit u r st).2 with lsPayloadCache := x }) := by
  unfold getBlendIdForUnit effUnit
  rw [fetch_ls_commute]
  dsimp only
  repeat' split
  all_goals rfl

/-- Two `loadUnitData` runs whose durable payload-cache strings both read
back empty behave identically: same return value, same state up to the raw
stored string, and the stored string still reads back the same. -/
theorem loadUnitData_cache_congr (unit : Int) (o : LoadOracle) (st : EngineState)
    (x y : Option String) (hx : readPayloadCache x = Json.obj [])
    (hy : readPayloadCache y = Json.obj []) :
    (loadUnitData unit o { st with lsPayloadCache := x }).1 =
      (loadUnitData unit o { st with lsPayloadCache := y }).1 ∧
    stripLsPayload (loadUnitData unit o { st with lsPayloadCache := x }).2 =
      stripLsPayload (loadUnitData unit o { st with lsPayloadCache := y }).2 ∧
    readPayloadCache (loadUnitData unit o { st with lsPayloadCache := x }).2.lsPayloadCache =
      readPayloadCache (loadUnitData unit o { st with lsPayloadCache := y }).2.lsPayloadCache := by
  have hex : effUnit unit { st with lsPayloadCache := x } = effUnit unit st := rfl
  have hey : effUnit unit { st with lsPayloadCache := y } = effUnit unit st := rfl
  have hge : ∀ k, getField (Json.obj []) k = none := fun _ => rfl
  unfold loadUnitData
  dsimp only
  rw [hex, hey, hx, hy, hge]
  dsimp only [truthyOpt]
  rw [if_neg (by simp), if_neg (by simp)]
  rw [getBlendId_ls_commute (effUnit unit st) o.unitsFetch x st,
      getBlendId_ls_commute (effUnit unit st) o.unitsFetch y st]
  cases hR : (getBlendIdForUnit (effUnit unit st) o.unitsFetch st).1 with
  | none =>
      dsimp only
      rw [hx, hy, hge]
      dsimp only
      rw [if_neg (by simp), if_neg (by simp)]
      refine ⟨rfl, rfl, ?_⟩
      dsimp only [clearFormForUnitUI]
      rw [hx, hy]
  | some idj =>
      dsimp only
      cases hB : o.blendResp with
      | none =>
          dsimp only
          rw [hx, hy, hge]
          dsimp only
          rw [if_neg (by simp), if_neg (by simp)]
          refine ⟨rfl, rfl, ?_⟩
          dsimp only [clearFormForUnitUI]
          rw [hx, hy]
      | some data =>
          dsimp only
          rw [populate_ls_commute (unwrapLoad data) x
                { (getBlendIdForUnit (effUnit unit st) o.unitsFetch st).2 with
                  netTrace :=
                    NetReq.getBlend idj ::
                      (getBlendIdForUnit (effUnit unit st) o.unitsFetch st).2.netTrace },
              populate_ls_commute (unwrapLoad data) y
                { (getBlendIdForUnit (effUnit unit st) o.unitsFetch st).2 with
                  netTrace :=
                    NetReq.getBlend idj ::
                      (getBlendIdForUnit (effUnit unit st) o.unitsFetch st).2.netTrace }]
          dsimp only
          rw [hx, hy]
          exact ⟨rfl, rfl, rfl⟩

/-- C7: a corrupt (non-parseable) string — and the absent case — stored under
the durable payload-cache key reads back as the empty mapping rather than an
error, and `loadUnitData` (total in this model: every JS throw site is
caught) returns the same value and reaches the same state — up to the raw
stored string, which still reads back empty — as if the cache were absent. -/
theorem C7_corrupt_cache_harmless (s : String) (hs : parseJson s = none) (unit : Int)
    (o : LoadOracle) (st : EngineState) :
    (readPayloadCache (some s) = Json.obj [] ∧ readPayloadCache none = Json.obj []) ∧
    ((loadUnitData unit o { st with lsPayloadCache := some s }).1 =
       (loadUnitData unit o { st with lsPayloadCache := none }).1 ∧
     stripLsPayload (loadUnitData unit o { st with lsPayloadCache := some s }).2 =
       stripLsPayload (loadUnitData unit o { st with lsPayloadCache := none }).2 ∧
     readPayloadCache (loadUnitData unit o { st with lsPayloadCache := some s }).2.lsPayloadCache =
       readPayloadCache (loadUnitData unit o
         { st with lsPayloadCache := none }).2.lsPayloadCache) :=
  ⟨⟨readPayloadCache_corrupt s hs, readPayloadCache_absent⟩,
   loadUnitData_cache_congr unit o st (some s) none (readPayloadCache_corrupt s hs)
     readPayloadCache_absent⟩

/-- Witness for C7 at the concrete corrupt string consisting of a lone
opening brace. -/
theorem C7_witness :
    parseJson obrace = none ∧
    (loadUnitData 1 { unitsFetch := none, blendResp := none }
        { initState with lsPayloadCache := some obrace }).1 =
      (loadUnitData 1 { unitsFetch := none, blendResp := none }
        { initState with lsPayloadCache := none }).1 :=
  ⟨rfl,
   (C7_corrupt_cache_harmless obrace rfl 1 { unitsFetch := none, blendResp := none }
      initState).2.1⟩

/-- Witness for C4: with the server map already holding a truthy id for unit
1, resolution returns it with no state change, and for an untruthy map with a
failing fetch and no local fallback it returns `none`. -/
theorem C4_witness :
    (truthyOpt (getField (Json.obj [("1", Json.str "id1")]) (toString (1 : Int))) = true ∧
      getBlendIdForUnit 1 none { initState with serverUnitMap := Json.obj [("1", Json.str "id1")] } =
        (getField (Json.obj [("1", Json.str "id1")]) (toString (1 : Int)),
         { initState with serverUnitMap := Json.obj [("1", Json.str "id1")] })) ∧
    (getBlendIdForUnit 2 none initState).1 = none :=
  ⟨⟨rfl, (C4_resolveUnitId_preference 1 none
      { initState with serverUnitMap := Json.obj [("1", Json.str "id1")] }
      (by norm_num) (by norm_num)).1 rfl⟩,
   (C4_resolveUnitId_preference 2 none initState (by norm_num) (by norm_num)).2.2.mpr
     ⟨rfl, rfl, rfl⟩⟩

/-- C2: an explicit save with a resolved id issues a PUT (update); with no
resolved id it issues a POST (create), and on a successful create it writes
the returned id into the locally persisted fallback map, PUTs the
unit-mapping store, and refreshes the in-memory server map — so that a
subsequent `getBlendIdForUnit` returns that id from the refreshed map with
no network call and no state change.  The unit-mapping backend is not under
`src/`; its `PUT /units/:unit` handler is modelled from the spec as
`serverPutUnit`, and the refresh oracle is its `GET /units` response. -/
theorem C2_save_create_roundtrip (st : EngineState) (o : SaveOracle) (now : Nat)
    (serverMap rid data : Json) (kvs : List (String × Json))
    (h1 : 1 ≤ st.currentUnit) (h3 : st.currentUnit ≤ 3)
    (hid : (getBlendIdForUnit st.currentUnit o.unitsFetch1 st).1 = none)
    (hdata : o.saveResp = some data)
    (hrid : firstTruthy [getField data "id", getField data "_id"] = some rid)
    (hobj : serverMap = Json.obj kvs)
    (hput : o.unitsPutThrew = false)
    (hrefresh : o.unitsFetch2 = some (serverPutUnit serverMap st.currentUnit rid)) :
    (∀ (st' : EngineState) (o' : SaveOracle) (now' : Nat) (idj : Json),
       (getBlendIdForUnit (if st'.currentUnit != 0 then st'.currentUnit else 1)
           o'.unitsFetch1 st').1 = some idj →
       (saveToServer o' now' st').netTrace =
         NetReq.putBlend idj (collectFormData st'.form st'.lsCoalColorMap now') ::
           (getBlendIdForUnit (if st'.currentUnit != 0 then st'.currentUnit else 1)
             o'.unitsFetch1 st').2.netTrace) ∧
    (saveToServer o now st).netTrace =
      NetReq.getUnits :: NetReq.putUnit st.currentUnit rid ::
        NetReq.postBlend (collectFormData st.form st.lsCoalColorMap now) ::
          (getBlendIdForUnit st.currentUnit o.unitsFetch1 st).2.netTrace ∧
    getField (serverPutUnit serverMap st.currentUnit rid) (toString st.currentUnit) =
      some rid ∧
    (saveToServer o now st).serverUnitMap = serverPutUnit serverMap st.currentUnit rid ∧
    (saveToServer o now st).lsBlendIds =
      some (printJson (serverPutUnit serverMap st.currentUnit rid)) ∧
    (∀ resp2 : Option Json,
       getBlendIdForUnit st.currentUnit resp2 (saveToServer o now st) =
         (some rid, saveToServer o now st)) := by
  refine ⟨?_, ?_⟩
  · intro st' o' now' idj hid'
    unfold saveToServer
    dsimp only
    rw [hid']
    cases hB : o'.saveResp with
    | none => rfl
    | some d =>
        cases d with
        | null => rfl
        | bool b => rfl
        | num n => rfl
        | str s2 => rfl
        | arr xs => rfl
        | obj dkvs2 => rfl
  have hif : (if st.currentUnit != 0 then st.currentUnit else 1) = st.currentUnit := by
    rw [if_pos]
    simp
    omega
  unfold saveToServer
  dsimp only
  rw [hif, hdata, hid]
  dsimp only
  subst hobj
  cases data with
  | null => simp [getField, firstTruthy, truthyOpt] at hrid
  | bool b => simp [getField, firstTruthy, truthyOpt] at hrid
  | num n => simp [getField, firstTruthy, truthyOpt] at hrid
  | str s2 => simp [getField, firstTruthy, truthyOpt] at hrid
  | arr xs => simp [getField, firstTruthy, truthyOpt] at hrid
  | obj dkvs =>
      dsimp only
      rw [hrid]
      dsimp only
      rw [hput]
      rw [if_neg (by simp)]
      rw [hrefresh]
      unfold fetchServerUnitMap
      dsimp only
      have hjs : jsOr (serverPutUnit (Json.obj kvs) st.currentUnit rid) (Json.obj []) =
          serverPutUnit (Json.obj kvs) st.currentUnit rid := by
        simp [serverPutUnit, setField, jsOr, jsTruthy]
      rw [hjs]
      have hbne : (st.currentUnit != 0) = true := by
        simp only [bne_iff_ne, ne_eq]
        omega
      refine ⟨rfl, getField_setField_self kvs _ rid, rfl, rfl, ?_⟩
      intro resp2
      unfold getBlendIdForUnit effUnit
      rw [hbne]
      dsimp only [writePayloadCache]
      rw [if_pos rfl]
      rw [if_neg (by simp; omega)]
      dsimp only [serverPutUnit]
      rw [getField_setField_self kvs (toString st.currentUnit) rid]
      rw [if_pos (by simp [truthyOpt, firstTruthy_truthy hrid])]

/-- Witness for C2 at the spec's concrete scenario: no prior id for unit 1,
the create returns id "abc123". -/
theorem C2_witness :
    ((getBlendIdForUnit 1 none initState).1 = none ∧
      firstTruthy [getField (Json.obj [("id", Json.str "abc123")]) "id",
        getField (Json.obj [("id", Json.str "abc123")]) "_id"] =
        some (Json.str "abc123")) ∧
    (saveToServer
        { unitsFetch1 := none, saveResp := some (Json.obj [("id", Json.str "abc123")]),
          unitsPutThrew := false,
          unitsFetch2 := some (serverPutUnit (Json.obj []) 1 (Json.str "abc123")) } 3
        initState).netTrace =
      NetReq.getUnits :: NetReq.putUnit 1 (Json.str "abc123") ::
        NetReq.postBlend (collectFormData initForm none 3) ::
          (getBlendIdForUnit 1 none initState).2.netTrace ∧
    (∀ resp2 : Option Json,
       getBlendIdForUnit 1 resp2
           (saveToServer
             { unitsFetch1 := none, saveResp := some (Json.obj [("id", Json.str "abc123")]),
               unitsPutThrew := false,
               unitsFetch2 := some (serverPutUnit (Json.obj []) 1 (Json.str "abc123")) } 3
             initState) =
         (some (Json.str "abc123"),
          saveToServer
            { unitsFetch1 := none, saveResp := some (Json.obj [("id", Json.str "abc123")]),
              unitsPutThrew := false,
              unitsFetch2 := some (serverPutUnit (Json.obj []) 1 (Json.str "abc123")) } 3
            initState)) :=
  ⟨⟨rfl, rfl⟩,
   (C2_save_create_roundtrip initState
      { unitsFetch1 := none, saveResp := some (Json.obj [("id", Json.str "abc123")]),
        unitsPutThrew := false,
        unitsFetch2 := some (serverPutUnit (Json.obj []) 1 (Json.str "abc123")) } 3
      (Json.obj []) (Json.str "abc123") (Json.obj [("id", Json.str "abc123")]) []
      (by decide) (by decide) rfl rfl rfl rfl rfl rfl).2.1,
   (C2_save_create_roundtrip initState
      { unitsFetch1 := none, saveResp := some (Json.obj [("id", Json.str "abc123")]),
        unitsPutThrew := false,
        unitsFetch2 := some (serverPutUnit (Json.obj []) 1 (Json.str "abc123")) } 3
      (Json.obj []) (Json.str "abc123") (Json.obj [("id", Json.str "abc123")]) []
      (by decide) (by decide) rfl rfl rfl rfl rfl rfl).2.2.2.2.2⟩

end BunkerSync
